import Mathlib

/-!
Verification development for the `vagrantp` repository: a shallow embedding
of its configuration parser (`src/config/parser.py`), the backend state
probes and lifecycle operations (`src/vagrant/vm_manager.py`,
`src/podman/container_manager.py`), the provisioning orchestrator
(`src/provision/ansible.py`, `src/cli/main.py`), and theorems about them.

Python strings are modelled as lists of characters (`PyStr`), which matches
Python's view of a string as a sequence of code points; the Python string
and `int` builtins used by the source are modelled by the `py*` helpers
below.  External effects (subprocess results, the filesystem, the process
environment) are passed in explicitly.
-/

deriving instance DecidableEq for Except

namespace Vagrantp

/-- Model of a Python string: a sequence of characters. -/
abbrev PyStr := List Char

/-- Embed a Lean string literal as a `PyStr`. -/
def str (s : String) : PyStr := s.data

/-- Python `str.split(sep)` for a one-character separator (keeps empty parts). -/
def pySplitChar (sep : Char) : PyStr → List PyStr
  | [] => [[]]
  | c :: rest =>
    if c = sep then [] :: pySplitChar sep rest
    else
      match pySplitChar sep rest with
      | [] => [[c]]
      | h :: t => (c :: h) :: t

/-- Python `str.split(sep, 1)` for a one-character separator: split at the
first occurrence only. -/
def pySplitOnceChar (sep : Char) : PyStr → List PyStr
  | [] => [[]]
  | c :: rest =>
    if c = sep then [[], rest]
    else
      match pySplitOnceChar sep rest with
      | [pre] => [c :: pre]
      | [pre, post] => [c :: pre, post]
      | _ => [[]]

/-- Python `str.lstrip()`. -/
def pyStripLeft (s : PyStr) : PyStr := s.dropWhile Char.isWhitespace

/-- Python `str.strip()`: drop whitespace from both ends. -/
def pyStrip (s : PyStr) : PyStr := (pyStripLeft (pyStripLeft s).reverse).reverse

/-- Python `str.upper()` (ASCII). -/
def pyUpper (s : PyStr) : PyStr := s.map Char.toUpper

/-- Python `str.lower()` (ASCII). -/
def pyLower (s : PyStr) : PyStr := s.map Char.toLower

/-- Python `str.isdigit()`: nonempty and all characters are digits. -/
def pyIsDigitStr (s : PyStr) : Bool := !s.isEmpty && s.all Char.isDigit

/-- Numeric value of a digit string (what Python `int` returns on it). -/
def natOfDigits (s : PyStr) : Nat := s.foldl (fun n c => 10 * n + (c.toNat - 48)) 0

/-- Python `int(s)`: optional surrounding whitespace, optional sign, digits;
`none` models a raised `ValueError`. -/
def pyInt? (s : PyStr) : Option Int :=
  match pyStrip s with
  | '+' :: ds => if pyIsDigitStr ds then some (natOfDigits ds : Int) else none
  | '-' :: ds => if pyIsDigitStr ds then some (-(natOfDigits ds : Int)) else none
  | ds => if pyIsDigitStr ds then some (natOfDigits ds : Int) else none

/-- Python `needle in hay` substring test. -/
def pyContainsSub (hay needle : PyStr) : Bool :=
  needle.isPrefixOf hay ||
    match hay with
    | [] => false
    | _ :: t => pyContainsSub t needle

/-- Decimal rendering of a natural number (Python `str(n)` for `n ≥ 0`). -/
def natToStr (n : Nat) : PyStr := Nat.toDigits 10 n

/-- Decimal rendering of an integer (Python `str(i)`). -/
def intToStr (i : Int) : PyStr :=
  if i < 0 then '-' :: natToStr i.natAbs else natToStr i.natAbs

/-! ## Data model (`src/utils/helpers.py`) -/

/-- `InfrastructureState` enumeration from `utils/helpers.py`. -/
inductive InfrastructureState where
  | notCreated
  | creating
  | running
  | stopped
  | removing
deriving DecidableEq

/-- `ErrorCode` enumeration from `utils/helpers.py`. -/
inductive ErrorCode where
  | success
  | generalError
  | configError
  | infraExists
  | insufficientResources
  | providerNotAvailable
  | portConflict
  | provisioningFailed
deriving DecidableEq

/-- `VagrantpError` from `utils/helpers.py`: message, code, optional remediation. -/
structure VagrantpError where
  message : PyStr
  code : ErrorCode
  sugg : Option PyStr
deriving DecidableEq

/-! ## Configuration parser (`src/config/parser.py`) -/

/-- `ValidationError` from `config/parser.py`: message plus optional field name. -/
structure ValidationError where
  message : PyStr
  field : Option PyStr
deriving DecidableEq

/-- `ValidationResult` from `config/parser.py`. -/
structure ValidationResult where
  valid : Bool
  errors : List PyStr
  warnings : List PyStr
deriving DecidableEq

/-- A Python `dict[str, str]` as an association list with unique keys. -/
abbrev Config := List (PyStr × PyStr)

/-- Python `d.get(k)` / `d[k]` on the dictionary model. -/
def dictGet (cfg : Config) (k : PyStr) : Option PyStr :=
  match cfg.find? (fun kv => kv.1 == k) with
  | some kv => some kv.2
  | none => none

/-- Python `d.get(k, default)`. -/
def dictGetD (cfg : Config) (k d : PyStr) : PyStr := (dictGet cfg k).getD d

/-- Python `d[k] = v`: replace an existing binding or append a new one. -/
def dictSet (cfg : Config) (k v : PyStr) : Config :=
  if cfg.any (fun kv => kv.1 == k) then
    cfg.map (fun kv => if kv.1 == k then (k, v) else kv)
  else
    cfg ++ [(k, v)]

/-- `ConfigurationParser._parse_memory`: digits with an optional `G`/`GB`/`M`/`MB`
suffix (after strip and upper-case); `G`/`GB` multiply by 1024. -/
def parseMemory (memoryStr : PyStr) : Except ValidationError Nat :=
  let m := pyUpper (pyStrip memoryStr)
  if pyIsDigitStr m then .ok (natOfDigits m)
  else
    let d := m.takeWhile Char.isDigit
    let rest := m.dropWhile Char.isDigit
    if d ≠ [] ∧ (rest = str "G" ∨ rest = str "M" ∨ rest = str "GB" ∨ rest = str "MB") then
      if rest = str "G" ∨ rest = str "GB" then .ok (natOfDigits d * 1024)
      else .ok (natOfDigits d)
    else .error ⟨str "Invalid MEMORY format: " ++ m, some (str "MEMORY")⟩

/-- `ConfigurationParser._parse_disk_size`: digits with an optional unit (after
strip and upper-case); `M`/`MB` integer-divide by 1024. -/
def parseDiskSize (diskStr : PyStr) : Except ValidationError Nat :=
  let m := pyUpper (pyStrip diskStr)
  if pyIsDigitStr m then .ok (natOfDigits m)
  else
    let d := m.takeWhile Char.isDigit
    let rest := m.dropWhile Char.isDigit
    if d ≠ [] ∧ (rest = str "G" ∨ rest = str "M" ∨ rest = str "GB" ∨ rest = str "MB") then
      if rest = str "M" ∨ rest = str "MB" then .ok (natOfDigits d / 1024)
      else .ok (natOfDigits d)
    else .error ⟨str "Invalid DISK_SIZE format: " ++ m, some (str "DISK_SIZE")⟩

/-- One parsed port mapping (`{"host": .., "container": .., "auto": ..}`). -/
structure PortMapping where
  host : Int
  container : Int
  auto : Bool
deriving DecidableEq

/-- One iteration of `ConfigurationParser._parse_ports`: parse a single
(already stripped) `HOST:GUEST` entry or fail with a `PORTS` error. -/
def parsePortEntry (mapping : PyStr) : Except ValidationError PortMapping :=
  if ¬ mapping.contains ':' then
    .error ⟨str "Invalid port mapping: " ++ mapping, some (str "PORTS")⟩
  else
    match pySplitOnceChar ':' mapping with
    | [hostPort, containerPort] =>
      if pyLower (pyStrip hostPort) = str "auto" then
        match pyInt? (pyStrip containerPort) with
        | some c => .ok ⟨0, c, true⟩
        | none => .error ⟨str "Invalid port mapping: " ++ mapping, some (str "PORTS")⟩
      else
        match pyInt? (pyStrip hostPort), pyInt? (pyStrip containerPort) with
        | some h, some c => .ok ⟨h, c, false⟩
        | _, _ => .error ⟨str "Invalid port mapping: " ++ mapping, some (str "PORTS")⟩
    | _ => .error ⟨str "Invalid port mapping: " ++ mapping, some (str "PORTS")⟩

/-- The loop of `ConfigurationParser._parse_ports`: the first invalid entry
aborts with its error. -/
def parsePortsGo : List PyStr → Except ValidationError (List PortMapping)
  | [] => .ok []
  | raw :: rest =>
    match parsePortEntry (pyStrip raw) with
    | .error e => .error e
    | .ok p =>
      match parsePortsGo rest with
      | .error e => .error e
      | .ok ps => .ok (p :: ps)

/-- `ConfigurationParser._parse_ports`. -/
def parsePortsV (portsStr : PyStr) : Except ValidationError (List PortMapping) :=
  parsePortsGo (pySplitChar ',' portsStr)

/-- Which (already stripped) port entries the parsers treat as malformed:
no `:`, or a side that Python `int()` rejects (an `auto` host side only needs
the guest side to parse). -/
def entryMalformed (m : PyStr) : Bool :=
  !m.contains ':' ||
    (match pySplitOnceChar ':' m with
     | [hostPort, containerPort] =>
       if pyLower (pyStrip hostPort) = str "auto" then
         (pyInt? (pyStrip containerPort)).isNone
       else
         (pyInt? (pyStrip hostPort)).isNone || (pyInt? (pyStrip containerPort)).isNone
     | _ => true)

/-- `ConfigurationParser._validate_ipv4` (model of `ipaddress.IPv4Address`
acceptance): four dot-separated decimal octets, one to three digits, no
leading zeros, each at most 255. -/
def validateIPv4 (ip : PyStr) : Bool :=
  let parts := pySplitChar '.' ip
  parts.length == 4 && parts.all fun p =>
    pyIsDigitStr p && p.length ≤ 3 &&
    (p.length == 1 || p.headD ' ' != '0') && natOfDigits p ≤ 255

/-- Position of the last `.` in a name, if any. -/
def lastDotIdx (name : PyStr) : Option Nat :=
  match name.reverse.findIdx? (· = '.') with
  | none => none
  | some j => some (name.length - 1 - j)

/-- Model of `pathlib.Path(p).suffix`: the extension of the final path
component (empty for hidden files and names without an interior dot). -/
def pathSuffix (p : PyStr) : PyStr :=
  let name := ((pySplitChar '/' p).filter (fun c => ¬ c.isEmpty)).getLastD []
  match lastDotIdx name with
  | none => []
  | some i => if 0 < i ∧ i + 1 < name.length then name.drop i else []

/-- Filesystem model for existence checks: which paths exist. -/
abbrev FS := PyStr → Bool

/-- The `INFRA_TYPE` block of `ConfigurationParser.validate` (also produces
the container `DISK_SIZE` warning). -/
def infraBlock (cfg : Config) (ew : List PyStr × List PyStr) : List PyStr × List PyStr :=
  match dictGet cfg (str "INFRA_TYPE") with
  | none => (ew.1 ++ [str "INFRA_TYPE is required"], ew.2)
  | some it =>
    let errors :=
      if it ≠ str "vm" ∧ it ≠ str "container" then
        ew.1 ++ [str "INFRA_TYPE must be 'vm' or 'container', got: " ++ it]
      else ew.1
    let errors :=
      if it = str "vm" ∧ dictGet cfg (str "PROVIDER") = none then
        errors ++ [str "PROVIDER is required for VM infrastructure"]
      else errors
    let warnings :=
      if it = str "container" ∧ (dictGet cfg (str "DISK_SIZE")).isSome then
        ew.2 ++ [str "DISK_SIZE is not applicable for container infrastructure"]
      else ew.2
    (errors, warnings)

/-- The `MEMORY` block of `ConfigurationParser.validate`. -/
def memoryBlock (cfg : Config) (errors : List PyStr) : List PyStr :=
  match dictGet cfg (str "MEMORY") with
  | none => errors
  | some ms =>
    match parseMemory ms with
    | .ok v =>
      if v < 512 then
        errors ++ [str "MEMORY must be at least 512MB, got: " ++ natToStr v ++ str "MB"]
      else errors
    | .error e => errors ++ [e.message]

/-- The `CPUS` block of `ConfigurationParser.validate`. -/
def cpusBlock (cfg : Config) (errors : List PyStr) : List PyStr :=
  match dictGet cfg (str "CPUS") with
  | none => errors
  | some cs =>
    match pyInt? cs with
    | some c =>
      if c < 1 then errors ++ [str "CPUS must be at least 1, got: " ++ intToStr c]
      else errors
    | none => errors ++ [str "Invalid CPUS value: " ++ cs]

/-- The `DISK_SIZE` block of `ConfigurationParser.validate`. -/
def diskBlock (cfg : Config) (errors : List PyStr) : List PyStr :=
  match dictGet cfg (str "DISK_SIZE") with
  | none => errors
  | some ds =>
    match parseDiskSize ds with
    | .ok v =>
      if v < 5 then
        errors ++ [str "DISK_SIZE must be at least 5GB, got: " ++ natToStr v ++ str "GB"]
      else errors
    | .error e => errors ++ [e.message]

/-- The `NETWORK_MODE` block of `ConfigurationParser.validate`. -/
def networkBlock (cfg : Config) (errors : List PyStr) : List PyStr :=
  match dictGet cfg (str "NETWORK_MODE") with
  | none => errors
  | some nm =>
    if nm ≠ str "bridge" ∧ nm ≠ str "default" then
      errors ++ [str "NETWORK_MODE must be 'bridge' or 'default', got: " ++ nm]
    else errors

/-- The `IP_ADDRESS` block of `ConfigurationParser.validate`. -/
def ipBlock (cfg : Config) (errors : List PyStr) : List PyStr :=
  match dictGet cfg (str "IP_ADDRESS") with
  | none => errors
  | some ip =>
    if ¬ validateIPv4 ip then errors ++ [str "Invalid IP_ADDRESS format: " ++ ip]
    else errors

/-- The `PORTS` block of `ConfigurationParser.validate`: a raised
`ValidationError` is caught and its message accumulated. -/
def portsBlock (cfg : Config) (errors : List PyStr) : List PyStr :=
  match dictGet cfg (str "PORTS") with
  | none => errors
  | some ps =>
    match parsePortsV ps with
    | .ok _ => errors
    | .error e => errors ++ [e.message]

/-- The `PROVISIONING_PLAYBOOK` block of `ConfigurationParser.validate`:
existence and extension are checked independently. -/
def playbookBlock (cfg : Config) (fs : FS) (errors : List PyStr) : List PyStr :=
  match dictGet cfg (str "PROVISIONING_PLAYBOOK") with
  | none => errors
  | some pb =>
    let errors :=
      if ¬ fs pb then errors ++ [str "PROVISIONING_PLAYBOOK not found: " ++ pb]
      else errors
    if pathSuffix pb ≠ str ".yml" ∧ pathSuffix pb ≠ str ".yaml" then
      errors ++ [str "PROVISIONING_PLAYBOOK must be a .yml or .yaml file"]
    else errors

/-- The `PROVISIONING_VARS` block of `ConfigurationParser.validate`. -/
def varsBlock (cfg : Config) (fs : FS) (errors : List PyStr) : List PyStr :=
  match dictGet cfg (str "PROVISIONING_VARS") with
  | none => errors
  | some vp =>
    if ¬ fs vp then errors ++ [str "PROVISIONING_VARS not found: " ++ vp]
    else errors

/-- The `PROVISIONING_AUTO_INSTALL_ANSIBLE` block of `ConfigurationParser.validate`. -/
def autoAnsibleBlock (cfg : Config) (errors : List PyStr) : List PyStr :=
  match dictGet cfg (str "PROVISIONING_AUTO_INSTALL_ANSIBLE") with
  | none => errors
  | some v =>
    let lv := pyLower v
    if ¬ (lv = str "true" ∨ lv = str "false" ∨ lv = str "1" ∨ lv = str "0" ∨
          lv = str "yes" ∨ lv = str "no") then
      errors ++ [str "PROVISIONING_AUTO_INSTALL_ANSIBLE must be true/false, 1/0, or yes/no"]
    else errors

/-- Errors the `INFRA_TYPE` rule contributes on its own. -/
def infraErrors (cfg : Config) : List PyStr :=
  match dictGet cfg (str "INFRA_TYPE") with
  | none => [str "INFRA_TYPE is required"]
  | some it =>
    (if it ≠ str "vm" ∧ it ≠ str "container" then
      [str "INFRA_TYPE must be 'vm' or 'container', got: " ++ it]
    else []) ++
    (if it = str "vm" ∧ dictGet cfg (str "PROVIDER") = none then
      [str "PROVIDER is required for VM infrastructure"]
    else [])

/-- Warnings the `INFRA_TYPE` rule contributes on its own. -/
def infraWarnings (cfg : Config) : List PyStr :=
  match dictGet cfg (str "INFRA_TYPE") with
  | none => []
  | some it =>
    if it = str "container" ∧ (dictGet cfg (str "DISK_SIZE")).isSome then
      [str "DISK_SIZE is not applicable for container infrastructure"]
    else []

/-- Errors the `MEMORY` rule contributes on its own. -/
def memoryErrors (cfg : Config) : List PyStr :=
  match dictGet cfg (str "MEMORY") with
  | none => []
  | some ms =>
    match parseMemory ms with
    | .ok v =>
      if v < 512 then [str "MEMORY must be at least 512MB, got: " ++ natToStr v ++ str "MB"]
      else []
    | .error e => [e.message]

/-- Errors the `CPUS` rule contributes on its own. -/
def cpusErrors (cfg : Config) : List PyStr :=
  match dictGet cfg (str "CPUS") with
  | none => []
  | some cs =>
    match pyInt? cs with
    | some c => if c < 1 then [str "CPUS must be at least 1, got: " ++ intToStr c] else []
    | none => [str "Invalid CPUS value: " ++ cs]

/-- Errors the `DISK_SIZE` rule contributes on its own. -/
def diskErrors (cfg : Config) : List PyStr :=
  match dictGet cfg (str "DISK_SIZE") with
  | none => []
  | some ds =>
    match parseDiskSize ds with
    | .ok v =>
      if v < 5 then [str "DISK_SIZE must be at least 5GB, got: " ++ natToStr v ++ str "GB"]
      else []
    | .error e => [e.message]

/-- Errors the `NETWORK_MODE` rule contributes on its own. -/
def networkErrors (cfg : Config) : List PyStr :=
  match dictGet cfg (str "NETWORK_MODE") with
  | none => []
  | some nm =>
    if nm ≠ str "bridge" ∧ nm ≠ str "default" then
      [str "NETWORK_MODE must be 'bridge' or 'default', got: " ++ nm]
    else []

/-- Errors the `IP_ADDRESS` rule contributes on its own. -/
def ipErrors (cfg : Config) : List PyStr :=
  match dictGet cfg (str "IP_ADDRESS") with
  | none => []
  | some ip => if ¬ validateIPv4 ip then [str "Invalid IP_ADDRESS format: " ++ ip] else []

/-- Errors the `PORTS` rule contributes on its own. -/
def portsErrors (cfg : Config) : List PyStr :=
  match dictGet cfg (str "PORTS") with
  | none => []
  | some ps =>
    match parsePortsV ps with
    | .ok _ => []
    | .error e => [e.message]

/-- Errors the `PROVISIONING_PLAYBOOK` rule contributes on its own. -/
def playbookErrors (cfg : Config) (fs : FS) : List PyStr :=
  match dictGet cfg (str "PROVISIONING_PLAYBOOK") with
  | none => []
  | some pb =>
    (if ¬ fs pb then [str "PROVISIONING_PLAYBOOK not found: " ++ pb] else []) ++
    (if pathSuffix pb ≠ str ".yml" ∧ pathSuffix pb ≠ str ".yaml" then
      [str "PROVISIONING_PLAYBOOK must be a .yml or .yaml file"]
    else [])

/-- Errors the `PROVISIONING_VARS` rule contributes on its own. -/
def varsErrors (cfg : Config) (fs : FS) : List PyStr :=
  match dictGet cfg (str "PROVISIONING_VARS") with
  | none => []
  | some vp => if ¬ fs vp then [str "PROVISIONING_VARS not found: " ++ vp] else []

/-- Errors the `PROVISIONING_AUTO_INSTALL_ANSIBLE` rule contributes on its own. -/
def autoAnsibleErrors (cfg : Config) : List PyStr :=
  match dictGet cfg (str "PROVISIONING_AUTO_INSTALL_ANSIBLE") with
  | none => []
  | some v =>
    let lv := pyLower v
    if ¬ (lv = str "true" ∨ lv = str "false" ∨ lv = str "1" ∨ lv = str "0" ∨
          lv = str "yes" ∨ lv = str "no") then
      [str "PROVISIONING_AUTO_INSTALL_ANSIBLE must be true/false, 1/0, or yes/no"]
    else []

/-- All rule errors together, in source order. -/
def allRuleErrors (cfg : Config) (fs : FS) : List PyStr :=
  infraErrors cfg ++ memoryErrors cfg ++ cpusErrors cfg ++ diskErrors cfg ++
    networkErrors cfg ++ ipErrors cfg ++ portsErrors cfg ++ playbookErrors cfg fs ++
    varsErrors cfg fs ++ autoAnsibleErrors cfg

/-- The memory/disk unit pattern of the spec (the source's regex
`^(\d+)(G|M|GB|MB)?$`, applied after strip and upper-case as the source
does): one or more digits followed by an optional unit. -/
def memPattern (s : PyStr) : Prop :=
  ∃ d u, pyUpper (pyStrip s) = d ++ u ∧ d ≠ [] ∧ (∀ c ∈ d, c.isDigit) ∧
    (u = [] ∨ u = str "G" ∨ u = str "M" ∨ u = str "GB" ∨ u = str "MB")

/-- Executable check equivalent to `memPattern` (maximal digit prefix plus a
recognized unit). -/
def memCheck (s : PyStr) : Bool :=
  let m := pyUpper (pyStrip s)
  pyIsDigitStr m ||
    (!(m.takeWhile Char.isDigit).isEmpty &&
      (m.dropWhile Char.isDigit == str "G" || m.dropWhile Char.isDigit == str "M" ||
        m.dropWhile Char.isDigit == str "GB" || m.dropWhile Char.isDigit == str "MB"))

/-- `ConfigurationParser.validate`: the blocks run in source order on one
accumulating error list; `valid` is `len(errors) == 0`. -/
def validate (cfg : Config) (fs : FS) : ValidationResult :=
  let ew := infraBlock cfg ([], [])
  let errors := memoryBlock cfg ew.1
  let errors := cpusBlock cfg errors
  let errors := diskBlock cfg errors
  let errors := networkBlock cfg errors
  let errors := ipBlock cfg errors
  let errors := portsBlock cfg errors
  let errors := playbookBlock cfg fs errors
  let errors := varsBlock cfg fs errors
  let errors := autoAnsibleBlock cfg errors
  ⟨errors.isEmpty, errors, ew.2⟩

/-- One iteration of the `ConfigurationParser.load` line loop: strip the
line, skip blanks and `#` comments, split `KEY=VALUE` at the first `=` and
strip both sides; a later duplicate key overwrites the earlier binding. -/
def envLineStep (acc : Config) (line : PyStr) : Config :=
  if (pyStrip line).isEmpty then acc
  else if (pyStrip line).headD ' ' = '#' then acc
  else if (pyStrip line).contains '=' then
    match pySplitOnceChar '=' (pyStrip line) with
    | [k, v] => dictSet acc (pyStrip k) (pyStrip v)
    | _ => acc
  else acc

/-- The line loop of `ConfigurationParser.load`. -/
def parseEnvLines (content : PyStr) : Config :=
  (pySplitChar '\n' content).foldl envLineStep []

/-- Python `os.environ.update(cfg)`: set every binding of `cfg` in `env`. -/
def envUpdate (env : Config) (cfg : Config) : Config :=
  cfg.foldl (fun e kv => dictSet e kv.1 kv.2) env

/-- `ConfigurationParser.load`: fail when the file is absent, otherwise parse
the content and also update the process environment with the parsed pairs.
Returns the parsed configuration together with the environment after the call. -/
def pyLoad (present : Bool) (content : PyStr) (env : Config) :
    Except Unit (Config × Config) :=
  if ¬ present then .error ()
  else
    let cfg := parseEnvLines content
    .ok (cfg, envUpdate env cfg)

/-! ## Backend state probes (`VMManager._get_state`, `ContainerManager._get_state`) -/

/-- Outcome of one backend status query (`run_command` with `check=False`):
either an exception while running it, or an exit code with captured stdout. -/
inductive QueryResult where
  | exc
  | ok (returncode : Int) (stdout : PyStr)
deriving DecidableEq

/-- The lines the probe loops over: `result.stdout.strip().split("\n")`
(empty when the query raised). -/
def queryLines : QueryResult → List PyStr
  | .exc => []
  | .ok _ out => pySplitChar '\n' (pyStrip out)

/-- One iteration of the `VMManager._get_state` loop: a `,,`-prefixed line
with at least three comma-separated parts maps `parts[1]` through the
Vagrant state vocabulary; `none` means the loop continues. -/
def vmStateLine (line : PyStr) : Option InfrastructureState :=
  if (str ",,").isPrefixOf line then
    let parts := pySplitChar ',' line
    if parts.length ≥ 3 then
      let vs := pyLower (pyStrip (parts.getD 1 []))
      if vs = str "running" then some .running
      else if vs = str "poweroff" ∨ vs = str "stopped" ∨ vs = str "aborted" then
        some .stopped
      else if vs = str "not created" ∨ vs = str "not_created" then some .notCreated
      else none
    else none
  else none

/-- The `VMManager._get_state` loop over stdout lines. -/
def vmScan : List PyStr → InfrastructureState
  | [] => .notCreated
  | l :: ls =>
    match vmStateLine l with
    | some s => s
    | none => vmScan ls

/-- `VMManager._get_state`: exceptions and non-zero exit codes normalize to
`NOT_CREATED`; otherwise scan the machine-readable status lines. -/
def vmGetState (q : QueryResult) : InfrastructureState :=
  match q with
  | .exc => .notCreated
  | .ok rc _ => if rc ≠ 0 then .notCreated else vmScan (queryLines q)

/-- One iteration of the `ContainerManager._get_state` loop: skip empty lines,
split at the first tab into name and status, and map the status text of the
named container; `none` means the loop continues. -/
def containerLine (infraId line : PyStr) : Option InfrastructureState :=
  if line.isEmpty then none
  else
    match pySplitOnceChar '\t' line with
    | [name, status] =>
      if name = infraId then
        if (str "up").isPrefixOf (pyLower status) then some .running
        else if pyContainsSub (pyLower status) (str "stopped") ∨
            pyContainsSub (pyLower status) (str "exited") ∨
            pyContainsSub (pyLower status) (str "created") then some .stopped
        else none
      else none
    | _ => none

/-- The `ContainerManager._get_state` loop over `podman ps -a` lines. -/
def containerScan (infraId : PyStr) : List PyStr → InfrastructureState
  | [] => .notCreated
  | l :: ls =>
    match containerLine infraId l with
    | some s => s
    | none => containerScan infraId ls

/-- `ContainerManager._get_state`: exceptions and non-zero exit codes
normalize to `NOT_CREATED`; otherwise scan the listing for the named
container. -/
def containerGetState (q : QueryResult) (infraId : PyStr) : InfrastructureState :=
  match q with
  | .exc => .notCreated
  | .ok rc _ => if rc ≠ 0 then .notCreated else containerScan infraId (queryLines q)

/-- Whether a listing line reports the named container with an `Up...` status
(the only way the container probe can answer `RUNNING`). -/
def lineUp (infraId line : PyStr) : Bool :=
  !line.isEmpty &&
    match pySplitOnceChar '\t' line with
    | [name, status] => name == infraId && (str "up").isPrefixOf (pyLower status)
    | _ => false

/-- Whether a listing line names the given container at all. -/
def lineNames (infraId line : PyStr) : Bool :=
  !line.isEmpty &&
    match pySplitOnceChar '\t' line with
    | [name, _] => name == infraId
    | _ => false

/-! ## Lifecycle operations (`VMManager`, `ContainerManager`) -/

/-- Which return path `start()` took. -/
inductive StartPath where
  | alreadyRunning
  | notExist
  | started
deriving DecidableEq

/-- Result of a `start()` call: the outcome, whether the backend start
primitive was invoked, and the backend state the world model determines
afterwards (`none` leaves it unconstrained, e.g. after a failed primitive). -/
structure StartOut where
  res : Except VagrantpError StartPath
  invoked : Bool
  backendAfter : Option InfrastructureState
deriving DecidableEq

/-- `VMManager.start` after its state probe: no-op when running or not
created; otherwise `vagrant up` with `check=False`, which never raises, so
every path returns without error.  `upSucceeds` is the hypervisor primitive's
outcome; when it succeeds the machine is running afterwards. -/
def vmStartAt (state : InfrastructureState) (upSucceeds : Bool) : StartOut :=
  if state = .running then ⟨.ok .alreadyRunning, false, none⟩
  else if state = .notCreated then ⟨.ok .notExist, false, none⟩
  else ⟨.ok .started, true, if upSucceeds then some .running else none⟩

/-- `ContainerManager.start` after its state probe: no-op when running or not
created; otherwise `podman start` with `check=True`, whose failure becomes a
`VagrantpError`. -/
def containerStartAt (state : InfrastructureState) (startRc : Int) : StartOut :=
  if state = .running then ⟨.ok .alreadyRunning, false, none⟩
  else if state = .notCreated then ⟨.ok .notExist, false, none⟩
  else if startRc = 0 then ⟨.ok .started, true, some .running⟩
  else
    ⟨.error ⟨str "Failed to start container", .generalError, none⟩, true, none⟩

/-- `VMManager.remove` after its state probe: no-op when not created; stop
first when running (graceful or forced per `force`); then `vagrant destroy
--force`.  `haltOk` and `destroyOk` are the backend primitives' outcomes. -/
def vmRemoveAt (state : InfrastructureState) (haltOk destroyOk : Bool) :
    Except VagrantpError Unit :=
  if state = .notCreated then .ok ()
  else if state = .running ∧ ¬ haltOk then
    .error ⟨str "Failed to stop VM", .generalError, none⟩
  else if destroyOk then .ok ()
  else .error ⟨str "Failed to remove VM", .generalError, none⟩

/-- `ContainerManager.remove` after its state probe (same shape with `podman
stop`/`podman kill` and `podman rm`). -/
def containerRemoveAt (state : InfrastructureState) (haltOk destroyOk : Bool) :
    Except VagrantpError Unit :=
  if state = .notCreated then .ok ()
  else if state = .running ∧ ¬ haltOk then
    .error ⟨str "Failed to stop container", .generalError, none⟩
  else if destroyOk then .ok ()
  else .error ⟨str "Failed to remove container", .generalError, none⟩

/-! ## Backend port parsers (`VMManager._parse_ports`, `ContainerManager._parse_ports`) -/

/-- One iteration of `VMManager._parse_ports`: like the validator's entry
parse but malformed entries answer `none` (the loop `continue`s). -/
def vmPortEntry? (mapping : PyStr) : Option PortMapping :=
  if ¬ mapping.contains ':' then none
  else
    match pySplitOnceChar ':' mapping with
    | [hostPort, containerPort] =>
      if pyLower (pyStrip hostPort) = str "auto" then
        match pyInt? (pyStrip containerPort) with
        | some c => some ⟨0, c, true⟩
        | none => none
      else
        match pyInt? (pyStrip hostPort), pyInt? (pyStrip containerPort) with
        | some h, some c => some ⟨h, c, false⟩
        | _, _ => none
    | _ => none

/-- The loop of `VMManager._parse_ports`: malformed entries are skipped. -/
def vmParsePortsGo : List PyStr → List PortMapping
  | [] => []
  | raw :: rest =>
    match vmPortEntry? (pyStrip raw) with
    | some p => p :: vmParsePortsGo rest
    | none => vmParsePortsGo rest

/-- `VMManager._parse_ports`. -/
def vmParsePorts (portsStr : PyStr) : List PortMapping :=
  vmParsePortsGo (pySplitChar ',' portsStr)

/-- One iteration of `ContainerManager._parse_ports` (same body as the VM
manager's). -/
def containerPortEntry? (mapping : PyStr) : Option PortMapping :=
  if ¬ mapping.contains ':' then none
  else
    match pySplitOnceChar ':' mapping with
    | [hostPort, containerPort] =>
      if pyLower (pyStrip hostPort) = str "auto" then
        match pyInt? (pyStrip containerPort) with
        | some c => some ⟨0, c, true⟩
        | none => none
      else
        match pyInt? (pyStrip hostPort), pyInt? (pyStrip containerPort) with
        | some h, some c => some ⟨h, c, false⟩
        | _, _ => none
    | _ => none

/-- The loop of `ContainerManager._parse_ports`. -/
def containerParsePortsGo : List PyStr → List PortMapping
  | [] => []
  | raw :: rest =>
    match containerPortEntry? (pyStrip raw) with
    | some p => p :: containerParsePortsGo rest
    | none => containerParsePortsGo rest

/-- `ContainerManager._parse_ports`. -/
def containerParsePorts (portsStr : PyStr) : List PortMapping :=
  containerParsePortsGo (pySplitChar ',' portsStr)

/-! ## Provisioning record (`ProvisioningManager`, declared in
`provision/ansible.py`'s importers and exercised by the tests, but absent
from the sources; modelled from the spec) -/

/-- Modelled from the spec: `ProvisioningManager.check_provisioning_status`
(the class itself is missing from the sources; only `cli/main.py` and the
integration tests reference it).  The ProvisioningRecord is a boolean-ish
marker scoped to one handle; the check reads its existence. -/
def checkRecord (marker : Bool) : Bool := marker

/-- Modelled from the spec: `ProvisioningManager.mark_provisioned` creates
the ProvisioningRecord for the handle. -/
def markRecordSet (_marker : Bool) : Bool := true

/-- Modelled from the spec: `ProvisioningManager.clear_provisioned_status`
removes the ProvisioningRecord for the handle. -/
def clearRecord (_marker : Bool) : Bool := false

/-! ## `AnsibleProvisioner.execute` (`src/provision/ansible.py`) -/

/-- Remote or filesystem actions `AnsibleProvisioner.execute` can perform,
in order of appearance.  `cmRun` is the configuration-management invocation
(`ansible-playbook`). -/
inductive AStep where
  | invWrite
  | sshEnsure
  | verifyProbe
  | cmRun
  | markWrite
  | invUnlink
deriving DecidableEq

/-- External inputs of one `AnsibleProvisioner.execute` call. -/
structure AEnv where
  markerPresent : Bool
  playbookExists : Bool
  varsExists : Option Bool
  infraType : PyStr
  inspectRc : Int
  inspectOut : PyStr
  pingRc : Int
  playRc : Int
  dryRun : Bool

/-- Result of one `AnsibleProvisioner.execute` call: outcome, the actions
performed in order, and the marker state afterwards. -/
structure ARes where
  res : Except VagrantpError Unit
  trace : List AStep
  markerAfter : Bool
deriving DecidableEq

/-- Number of configuration-management invocations in an
`AnsibleProvisioner.execute` trace. -/
def cmCountA (tr : List AStep) : Nat := tr.count .cmRun

/-- Whether `_verify_ssh_connection` fails: for containers `podman inspect`
must exit 0 with `running` in its output; for VMs the `ansible ... -m ping`
probe must exit 0. -/
def verifyFails (e : AEnv) : Bool :=
  if e.infraType = str "container" then
    e.inspectRc != 0 || !pyContainsSub (pyLower e.inspectOut) (str "running")
  else
    e.pingRc != 0

/-- `AnsibleProvisioner.execute`: check playbook and vars files, write the
temporary inventory, ensure SSH inside containers (outcome ignored), verify
the connection, run `ansible-playbook` (failure raises
`ProvisioningFailedError`), mark provisioned unless `dry_run`, and remove
the inventory file.  Note that it never consults the provisioning marker. -/
def executeA (e : AEnv) : ARes :=
  if ¬ e.playbookExists then
    ⟨.error ⟨str "Ansible playbook failed: Playbook not found", .provisioningFailed, none⟩,
      [], e.markerPresent⟩
  else if (match e.varsExists with | some ex => !ex | none => false) then
    ⟨.error ⟨str "Ansible playbook failed: Variables file not found", .provisioningFailed, none⟩,
      [], e.markerPresent⟩
  else
    let tr := [AStep.invWrite]
    let tr := if e.infraType = str "container" then tr ++ [.sshEnsure] else tr
    let tr := tr ++ [.verifyProbe]
    if verifyFails e then
      ⟨.error ⟨str "Failed to verify connection", .provisioningFailed, none⟩, tr, e.markerPresent⟩
    else
      let tr := tr ++ [.cmRun]
      if e.playRc ≠ 0 then
        ⟨.error ⟨str "Ansible playbook failed: Playbook execution failed",
            .provisioningFailed, none⟩, tr, e.markerPresent⟩
      else if ¬ e.dryRun then
        ⟨.ok (), tr ++ [.markWrite, .invUnlink], markRecordSet e.markerPresent⟩
      else
        ⟨.ok (), tr ++ [.invUnlink], e.markerPresent⟩

/-! ## CLI provisioning orchestration (`_run_provisioning` in `src/cli/main.py`) -/

/-- Remote actions `_run_provisioning` can perform, in order of appearance. -/
inductive PStep where
  | probe
  | detect
  | checkAnsible
  | installPy
  | installAnsible
  | verify
  | copyPb
  | cmRun
  | markRec
deriving DecidableEq

/-- External inputs of one `_run_provisioning` call. -/
structure PEnv where
  cfg : Config
  infraType : PyStr
  infraId : PyStr
  containerProbe : QueryResult
  runtime : Option PyStr
  ansiblePresent : Bool
  pyInstallOk : Bool
  ansibleInstallOk : Bool
  sshCfgRc : Int
  copyOk : Bool
  playRc : Int

/-- Result of one `_run_provisioning` call. -/
structure PRes where
  res : Except VagrantpError Unit
  trace : List PStep
  markerAfter : Bool
deriving DecidableEq

/-- Number of configuration-management invocations in a trace. -/
def cmCount (tr : List PStep) : Nat := tr.count .cmRun

/-- The final `try` block of `_run_provisioning`: run the playbook (inside
the container via the runtime, or for anything else via
`ProvisioningManager.execute`, which is modelled from the spec as one
configuration-management run failing on a non-zero exit code) and on success
mark the handle provisioned. -/
def runPlaybookPhase (e : PEnv) (marker : Bool) (tr : List PStep) : PRes :=
  if e.infraType = str "container" then
    let tr := tr ++ [.copyPb]
    if ¬ e.copyOk then
      ⟨.error ⟨str "Provisioning failed", .provisioningFailed, none⟩, tr, marker⟩
    else
      let tr := tr ++ [.cmRun]
      if e.playRc ≠ 0 then
        ⟨.error ⟨str "Ansible playbook failed: Playbook execution failed",
            .provisioningFailed, none⟩, tr, marker⟩
      else ⟨.ok (), tr ++ [.markRec], markRecordSet marker⟩
  else
    let tr := tr ++ [.cmRun]
    if e.playRc ≠ 0 then
      ⟨.error ⟨str "Ansible playbook failed: Playbook execution failed",
          .provisioningFailed, none⟩, tr, marker⟩
    else ⟨.ok (), tr ++ [.markRec], markRecordSet marker⟩

/-- `_run_provisioning`: skip when no playbook is configured; skip
immediately (before any probing, bootstrap or connectivity work) when the
ProvisioningRecord already exists; for containers probe the state, detect
the runtime and bootstrap Ansible as configured; for VMs do a best-effort
SSH verification; then run the playbook and mark the handle provisioned. -/
def runProvisioning (e : PEnv) (marker : Bool) : PRes :=
  match dictGet e.cfg (str "PROVISIONING_PLAYBOOK") with
  | none => ⟨.ok (), [], marker⟩
  | some pb =>
    if pb.isEmpty then ⟨.ok (), [], marker⟩
    else
      let autoInstall :=
        let v := pyLower (dictGetD e.cfg (str "PROVISIONING_AUTO_INSTALL_ANSIBLE") (str "false"))
        v = str "true" ∨ v = str "1" ∨ v = str "yes"
      if checkRecord marker then ⟨.ok (), [], marker⟩
      else if e.infraType = str "container" then
        let tr := [PStep.probe]
        if containerGetState e.containerProbe e.infraId ≠ .running then
          ⟨.error ⟨str "Container is not running", .generalError, none⟩, tr, marker⟩
        else
          let tr := tr ++ [.detect]
          match e.runtime with
          | none =>
            ⟨.error ⟨str "Neither Podman nor Docker detected", .generalError, none⟩, tr, marker⟩
          | some _ =>
            let tr := tr ++ [.checkAnsible]
            if ¬ e.ansiblePresent then
              if autoInstall then
                let tr := tr ++ [.installPy]
                if ¬ e.pyInstallOk then ⟨.ok (), tr, marker⟩
                else
                  let tr := tr ++ [.installAnsible]
                  if ¬ e.ansibleInstallOk then ⟨.ok (), tr, marker⟩
                  else runPlaybookPhase e marker tr
              else ⟨.ok (), tr, marker⟩
            else runPlaybookPhase e marker tr
      else
        let tr := if e.infraType = str "vm" then [PStep.verify] else []
        runPlaybookPhase e marker tr

/-! ## `rm` command (`src/cli/main.py`) -/

/-- External inputs of one `rm` invocation. -/
structure RmEnv where
  infraType : PyStr
  force : Bool
  probed : InfrastructureState
  response : PyStr
  haltOk : Bool
  destroyOk : Bool

/-- How an `rm` invocation ended. -/
inductive RmOutcome where
  | cancelled
  | completed
  | failed
deriving DecidableEq

/-- The `rm` task: without `--force`, probe the state and ask for
confirmation when the instance exists; then run the manager's `remove` and,
when it returns, clear the ProvisioningRecord (the clearing itself is the
spec-modelled `ProvisioningManager.clear_provisioned_status`).  Returns the
outcome and the marker state afterwards. -/
def rmCmd (e : RmEnv) (marker : Bool) : RmOutcome × Bool :=
  if e.infraType = str "vm" then
    if ¬ e.force ∧ e.probed ≠ .notCreated ∧ pyLower e.response ≠ str "yes" then
      (.cancelled, marker)
    else
      match vmRemoveAt e.probed e.haltOk e.destroyOk with
      | .ok _ => (.completed, clearRecord marker)
      | .error _ => (.failed, marker)
  else if e.infraType = str "container" then
    if ¬ e.force ∧ e.probed ≠ .notCreated ∧ pyLower e.response ≠ str "yes" then
      (.cancelled, marker)
    else
      match containerRemoveAt e.probed e.haltOk e.destroyOk with
      | .ok _ => (.completed, clearRecord marker)
      | .error _ => (.failed, marker)
  else (.failed, marker)

/-! ## Helper lemmas -/

theorem pySplitChar_ne_nil (sep : Char) (s : PyStr) : pySplitChar sep s ≠ [] := by
  cases s with
  | nil => simp [pySplitChar]
  | cons c rest =>
    unfold pySplitChar
    split
    · simp
    · split <;> simp

theorem vmStateLine_none (l : PyStr) : vmStateLine l = none := by
  unfold vmStateLine
  split
  case isTrue h =>
    obtain ⟨t, rfl⟩ : ∃ t, l = ',' :: ',' :: t := by
      match l with
      | [] => simp [str, List.isPrefixOf] at h
      | [a] => simp [str, List.isPrefixOf] at h
      | a :: b :: t =>
        simp only [str, List.isPrefixOf, Bool.and_eq_true, beq_iff_eq] at h
        exact ⟨t, by
          have h1 : ',' = a := h.1
          have h2 : ',' = b := h.2.1
          rw [← h1, ← h2]⟩
    have hsplit : pySplitChar ',' (',' :: ',' :: t) = [] :: [] :: pySplitChar ',' t := by
      simp [pySplitChar]
    rw [hsplit]
    have hlen : (([] : PyStr) :: [] :: pySplitChar ',' t).length ≥ 3 := by
      have := pySplitChar_ne_nil ',' t
      have : 0 < (pySplitChar ',' t).length := List.length_pos.mpr this
      simp only [List.length_cons]
      omega
    rw [if_pos hlen]
    simp [pyLower, pyStrip, pyStripLeft, str]
  case isFalse h => rfl

theorem vmScan_notCreated (ls : List PyStr) : vmScan ls = .notCreated := by
  induction ls with
  | nil => rfl
  | cons l ls ih => simp [vmScan, vmStateLine_none, ih]

theorem vmGetState_notCreated (q : QueryResult) : vmGetState q = .notCreated := by
  cases q with
  | exc => rfl
  | ok rc out =>
    by_cases h : rc ≠ 0
    · simp [vmGetState, h]
    · simp [vmGetState, h, vmScan_notCreated]

theorem containerLine_cases (infraId l : PyStr) :
    containerLine infraId l = none ∨ containerLine infraId l = some .running ∨
      containerLine infraId l = some .stopped := by
  unfold containerLine
  split
  · exact .inl rfl
  · split
    · split
      · split
        · exact .inr (.inl rfl)
        · split
          · exact .inr (.inr rfl)
          · exact .inl rfl
      · exact .inl rfl
    · exact .inl rfl

theorem containerLine_running (infraId l : PyStr)
    (h : containerLine infraId l = some .running) : lineUp infraId l = true := by
  simp only [containerLine] at h
  split at h
  · cases h
  · rename_i hemp
    simp only [Bool.not_eq_true] at hemp
    split at h
    · rename_i name status heq
      split at h
      · rename_i hname
        split at h
        · rename_i hup
          simp [lineUp, hemp, heq, hname, hup]
        · split at h <;> cases h
      · cases h
    · cases h

theorem containerLine_names (infraId l : PyStr) (s : InfrastructureState)
    (h : containerLine infraId l = some s) : lineNames infraId l = true := by
  simp only [containerLine] at h
  split at h
  · cases h
  · rename_i hemp
    simp only [Bool.not_eq_true] at hemp
    split at h
    · rename_i name status heq
      split at h
      · rename_i hname
        simp [lineNames, hemp, heq, hname]
      · cases h
    · cases h

theorem containerScan_cases (infraId : PyStr) (ls : List PyStr) :
    containerScan infraId ls = .running ∨ containerScan infraId ls = .stopped ∨
      containerScan infraId ls = .notCreated := by
  induction ls with
  | nil => exact .inr (.inr rfl)
  | cons l ls ih =>
    unfold containerScan
    rcases containerLine_cases infraId l with h | h | h <;> rw [h]
    · exact ih
    · exact .inl rfl
    · exact .inr (.inl rfl)

theorem containerScan_no_up (infraId : PyStr) (ls : List PyStr)
    (h : ∀ l ∈ ls, lineUp infraId l = false) :
    containerScan infraId ls ≠ .running := by
  induction ls with
  | nil => simp [containerScan]
  | cons l ls ih =>
    unfold containerScan
    rcases hc : containerLine infraId l with _ | s
    · exact ih fun x hx => h x (List.mem_cons_of_mem _ hx)
    · cases s with
      | running =>
        have := containerLine_running infraId l hc
        rw [h l (List.mem_cons_self _ _)] at this
        cases this
      | notCreated => simp
      | creating => simp
      | stopped => simp
      | removing => simp

theorem containerScan_absent (infraId : PyStr) (ls : List PyStr)
    (h : ∀ l ∈ ls, lineNames infraId l = false) :
    containerScan infraId ls = .notCreated := by
  induction ls with
  | nil => rfl
  | cons l ls ih =>
    unfold containerScan
    rcases hc : containerLine infraId l with _ | s
    · exact ih fun x hx => h x (List.mem_cons_of_mem _ hx)
    · have := containerLine_names infraId l s hc
      rw [h l (List.mem_cons_self _ _)] at this
      cases this

/-! ## Claim theorems -/

/-- Claim C1: when a `create()` does not succeed at the backend — the
backend does not report the instance as running (for containers, no
`podman ps` line lists the instance with an `Up...` status; for VMs this
holds for every query outcome) — an immediately following `current_state()`
probe (`_get_state`, which reads only the live backend query) returns
`NotCreated` or `Stopped`, never `Running`. -/
theorem c1_create_failure_never_running :
    (∀ q : QueryResult, vmGetState q = .notCreated ∨ vmGetState q = .stopped) ∧
    (∀ (q : QueryResult) (infraId : PyStr),
      (∀ l ∈ queryLines q, lineUp infraId l = false) →
      containerGetState q infraId = .notCreated ∨
        containerGetState q infraId = .stopped) := by
  constructor
  · intro q
    exact .inl (vmGetState_notCreated q)
  · intro q infraId h
    cases q with
    | exc => exact .inl rfl
    | ok rc out =>
      by_cases hrc : rc ≠ 0
      · left
        simp [containerGetState, hrc]
      · have hscan := containerScan_no_up infraId (queryLines (.ok rc out)) h
        rcases containerScan_cases infraId (queryLines (.ok rc out)) with hr | hs | hn
        · exact absurd hr hscan
        · right
          simp [containerGetState, hrc, hs]
        · left
          simp [containerGetState, hrc, hn]

/-- Witness for C1 at a concrete failed-creation world: the backend lists
the container only as `Exited`, and the probe answers `NotCreated` or
`Stopped`. -/
theorem c1_create_failure_never_running_witness :
    containerGetState (.ok 0 (str "web\tExited (0) 3 seconds ago")) (str "web") = .notCreated ∨
      containerGetState (.ok 0 (str "web\tExited (0) 3 seconds ago")) (str "web") = .stopped :=
  c1_create_failure_never_running.2 (.ok 0 (str "web\tExited (0) 3 seconds ago"))
    (str "web") (by decide)

/-- Claim C3: the state probes never raise (every query outcome is mapped to
a state), only ever return `Running`, `Stopped` or `NotCreated` (never
`Creating` or `Removing`), normalize query exceptions, non-zero exit codes
and absence of the named instance to `NotCreated`, and never report a failed
or errored query as `Running`. -/
theorem c3_state_probe_total (q : QueryResult) (infraId : PyStr) :
    (vmGetState q = .running ∨ vmGetState q = .stopped ∨ vmGetState q = .notCreated) ∧
    (containerGetState q infraId = .running ∨ containerGetState q infraId = .stopped ∨
      containerGetState q infraId = .notCreated) ∧
    (vmGetState .exc = .notCreated ∧ containerGetState .exc infraId = .notCreated) ∧
    (∀ rc out, rc ≠ 0 → vmGetState (.ok rc out) = .notCreated ∧
      containerGetState (.ok rc out) infraId = .notCreated) ∧
    ((∀ l ∈ queryLines q, lineNames infraId l = false) →
      containerGetState q infraId = .notCreated) := by
  refine ⟨.inr (.inr (vmGetState_notCreated q)), ?_, ⟨rfl, rfl⟩, ?_, ?_⟩
  · cases q with
    | exc => exact .inr (.inr rfl)
    | ok rc out =>
      by_cases hrc : rc ≠ 0
      · right; right
        simp [containerGetState, hrc]
      · rcases containerScan_cases infraId (queryLines (.ok rc out)) with hr | hs | hn
        · left
          simp [containerGetState, hrc, hr]
        · right; left
          simp [containerGetState, hrc, hs]
        · right; right
          simp [containerGetState, hrc, hn]
  · intro rc out hrc
    constructor
    · exact vmGetState_notCreated _
    · simp [containerGetState, hrc]
  · intro h
    cases q with
    | exc => rfl
    | ok rc out =>
      by_cases hrc : rc ≠ 0
      · simp [containerGetState, hrc]
      · have := containerScan_absent infraId (queryLines (.ok rc out)) h
        simp [containerGetState, hrc, this]

theorem str_vm_ne_container : ¬ (str "vm" = str "container") := by decide

theorem str_container_ne_vm : ¬ (str "container" = str "vm") := by decide

theorem infraBlock_eq (cfg : Config) (ew : List PyStr × List PyStr) :
    infraBlock cfg ew = (ew.1 ++ infraErrors cfg, ew.2 ++ infraWarnings cfg) := by
  cases h : dictGet cfg (str "INFRA_TYPE") with
  | none => simp [infraBlock, infraErrors, infraWarnings, h]
  | some it =>
    by_cases h1 : it ≠ str "vm" ∧ it ≠ str "container" <;>
      by_cases h2 : it = str "vm" ∧ dictGet cfg (str "PROVIDER") = none <;>
        by_cases h3 : it = str "container" ∧ (dictGet cfg (str "DISK_SIZE")).isSome <;>
          simp [infraBlock, infraErrors, infraWarnings, h, h1, h2, h3,
            str_vm_ne_container, str_container_ne_vm]

theorem memoryBlock_eq (cfg : Config) (es : List PyStr) :
    memoryBlock cfg es = es ++ memoryErrors cfg := by
  cases h : dictGet cfg (str "MEMORY") with
  | none => simp [memoryBlock, memoryErrors, h]
  | some ms =>
    cases hp : parseMemory ms with
    | ok v => by_cases hv : v < 512 <;> simp [memoryBlock, memoryErrors, h, hp, hv]
    | error e => simp [memoryBlock, memoryErrors, h, hp]

theorem cpusBlock_eq (cfg : Config) (es : List PyStr) :
    cpusBlock cfg es = es ++ cpusErrors cfg := by
  cases h : dictGet cfg (str "CPUS") with
  | none => simp [cpusBlock, cpusErrors, h]
  | some cs =>
    cases hp : pyInt? cs with
    | some c => by_cases hc : c < 1 <;> simp [cpusBlock, cpusErrors, h, hp, hc]
    | none => simp [cpusBlock, cpusErrors, h, hp]

theorem diskBlock_eq (cfg : Config) (es : List PyStr) :
    diskBlock cfg es = es ++ diskErrors cfg := by
  cases h : dictGet cfg (str "DISK_SIZE") with
  | none => simp [diskBlock, diskErrors, h]
  | some ds =>
    cases hp : parseDiskSize ds with
    | ok v => by_cases hv : v < 5 <;> simp [diskBlock, diskErrors, h, hp, hv]
    | error e => simp [diskBlock, diskErrors, h, hp]

theorem networkBlock_eq (cfg : Config) (es : List PyStr) :
    networkBlock cfg es = es ++ networkErrors cfg := by
  cases h : dictGet cfg (str "NETWORK_MODE") with
  | none => simp [networkBlock, networkErrors, h]
  | some nm =>
    by_cases hn : nm ≠ str "bridge" ∧ nm ≠ str "default" <;>
      simp [networkBlock, networkErrors, h, hn]

theorem ipBlock_eq (cfg : Config) (es : List PyStr) :
    ipBlock cfg es = es ++ ipErrors cfg := by
  cases h : dictGet cfg (str "IP_ADDRESS") with
  | none => simp [ipBlock, ipErrors, h]
  | some ip => by_cases hv : validateIPv4 ip <;> simp [ipBlock, ipErrors, h, hv]

theorem portsBlock_eq (cfg : Config) (es : List PyStr) :
    portsBlock cfg es = es ++ portsErrors cfg := by
  cases h : dictGet cfg (str "PORTS") with
  | none => simp [portsBlock, portsErrors, h]
  | some ps =>
    cases hp : parsePortsV ps with
    | ok l => simp [portsBlock, portsErrors, h, hp]
    | error e => simp [portsBlock, portsErrors, h, hp]

theorem playbookBlock_eq (cfg : Config) (fs : FS) (es : List PyStr) :
    playbookBlock cfg fs es = es ++ playbookErrors cfg fs := by
  cases h : dictGet cfg (str "PROVISIONING_PLAYBOOK") with
  | none => simp [playbookBlock, playbookErrors, h]
  | some pb =>
    by_cases h1 : fs pb <;>
      by_cases h2 : pathSuffix pb ≠ str ".yml" ∧ pathSuffix pb ≠ str ".yaml" <;>
        simp [playbookBlock, playbookErrors, h, h1, h2]

theorem varsBlock_eq (cfg : Config) (fs : FS) (es : List PyStr) :
    varsBlock cfg fs es = es ++ varsErrors cfg fs := by
  cases h : dictGet cfg (str "PROVISIONING_VARS") with
  | none => simp [varsBlock, varsErrors, h]
  | some vp => by_cases h1 : fs vp <;> simp [varsBlock, varsErrors, h, h1]

theorem autoAnsibleBlock_eq (cfg : Config) (es : List PyStr) :
    autoAnsibleBlock cfg es = es ++ autoAnsibleErrors cfg := by
  cases h : dictGet cfg (str "PROVISIONING_AUTO_INSTALL_ANSIBLE") with
  | none => simp [autoAnsibleBlock, autoAnsibleErrors, h]
  | some v =>
    by_cases h1 : pyLower v = str "true" ∨ pyLower v = str "false" ∨ pyLower v = str "1" ∨
        pyLower v = str "0" ∨ pyLower v = str "yes" ∨ pyLower v = str "no" <;>
      simp [autoAnsibleBlock, autoAnsibleErrors, h, h1]

theorem validate_decomposed (cfg : Config) (fs : FS) :
    validate cfg fs =
      ⟨(allRuleErrors cfg fs).isEmpty, allRuleErrors cfg fs, infraWarnings cfg⟩ := by
  unfold validate allRuleErrors
  rw [infraBlock_eq]
  simp only [memoryBlock_eq, cpusBlock_eq, diskBlock_eq, networkBlock_eq, ipBlock_eq,
    portsBlock_eq, playbookBlock_eq, varsBlock_eq, autoAnsibleBlock_eq]
  simp [List.append_assoc]

theorem digit_ne_of (c x : Char) (h : c.isDigit = true) (hx : x.isDigit = false) :
    ¬ c = x :=
  fun hc => by subst hc; rw [h] at hx; cases hx

theorem digit_not_ws (c : Char) (h : c.isDigit = true) : c.isWhitespace = false := by
  simp only [Char.isWhitespace]
  simp only [Bool.or_eq_false_iff, decide_eq_false_iff_not]
  exact ⟨⟨⟨digit_ne_of c ' ' h (by decide), digit_ne_of c '\t' h (by decide)⟩,
    digit_ne_of c '\x0d' h (by decide)⟩, digit_ne_of c '\n' h (by decide)⟩

theorem digit_toUpper (c : Char) (h : c.isDigit = true) : c.toUpper = c := by
  simp only [Char.isDigit, Bool.and_eq_true, decide_eq_true_eq] at h
  have h2 : c.val.toNat ≤ 57 := UInt32.toNat_le_of_le (by decide) h.2
  rw [Char.toUpper, if_neg]
  intro hc
  have hn : Char.toNat c = c.val.toNat := rfl
  rw [hn] at hc
  omega

theorem dropWhile_all_false {α : Type} (p : α → Bool) (l : List α)
    (h : ∀ c ∈ l, p c = false) : l.dropWhile p = l := by
  cases l with
  | nil => rfl
  | cons a t => simp [List.dropWhile_cons, h a (List.mem_cons_self _ _)]

theorem pyStrip_no_ws (s : PyStr) (h : ∀ c ∈ s, c.isWhitespace = false) :
    pyStrip s = s := by
  unfold pyStrip pyStripLeft
  rw [dropWhile_all_false _ _ h,
    dropWhile_all_false _ _ (fun c hc => h c (List.mem_reverse.mp hc)),
    List.reverse_reverse]

theorem pyUpper_id_of (s : PyStr) (h : ∀ c ∈ s, c.toUpper = c) : pyUpper s = s := by
  unfold pyUpper
  rw [List.map_congr_left h]
  simp

theorem takeWhile_append_all {α : Type} (p : α → Bool) (l r : List α)
    (h : ∀ c ∈ l, p c = true) : (l ++ r).takeWhile p = l ++ r.takeWhile p := by
  induction l with
  | nil => simp
  | cons a t ih =>
    simp [List.takeWhile_cons, h a (List.mem_cons_self _ _),
      ih (fun c hc => h c (List.mem_cons_of_mem _ hc))]

theorem dropWhile_append_all {α : Type} (p : α → Bool) (l r : List α)
    (h : ∀ c ∈ l, p c = true) : (l ++ r).dropWhile p = r.dropWhile p := by
  induction l with
  | nil => simp
  | cons a t ih =>
    simp [List.dropWhile_cons, h a (List.mem_cons_self _ _),
      ih (fun c hc => h c (List.mem_cons_of_mem _ hc))]

theorem parseMemory_suffix (ds u : PyStr) (hne : ds ≠ [])
    (hdig : ∀ c ∈ ds, c.isDigit = true)
    (hm : pyUpper (pyStrip (ds ++ u)) = ds ++ u)
    (hnd : pyIsDigitStr (ds ++ u) = false)
    (hcond : u = str "G" ∨ u = str "M" ∨ u = str "GB" ∨ u = str "MB")
    (htw : u.takeWhile Char.isDigit = []) (hdw : u.dropWhile Char.isDigit = u) :
    parseMemory (ds ++ u) =
      if u = str "G" ∨ u = str "GB" then .ok (natOfDigits ds * 1024)
      else .ok (natOfDigits ds) := by
  simp only [parseMemory, hm, hnd]
  rw [takeWhile_append_all _ _ _ hdig, dropWhile_append_all _ _ _ hdig, htw, hdw,
    List.append_nil]
  rw [if_neg (by simp), if_pos ⟨hne, hcond⟩]

theorem pyIsDigitStr_iff (s : PyStr) :
    pyIsDigitStr s = true ↔ s ≠ [] ∧ ∀ c ∈ s, c.isDigit = true := by
  simp [pyIsDigitStr, List.all_eq_true, List.isEmpty_iff]

theorem norm_digits_unit (ds u : PyStr) (hdig : ∀ c ∈ ds, c.isDigit = true)
    (hu1 : ∀ c ∈ u, c.isWhitespace = false) (hu2 : ∀ c ∈ u, c.toUpper = c) :
    pyUpper (pyStrip (ds ++ u)) = ds ++ u := by
  rw [pyStrip_no_ws, pyUpper_id_of]
  · intro c hc
    rcases List.mem_append.mp hc with h | h
    · exact digit_toUpper c (hdig c h)
    · exact hu2 c h
  · intro c hc
    rcases List.mem_append.mp hc with h | h
    · exact digit_not_ws c (hdig c h)
    · exact hu1 c h

theorem memCheck_of_memPattern (s : PyStr) (h : memPattern s) : memCheck s = true := by
  obtain ⟨d, u, heq, hne, hdig, hu⟩ := h
  simp only [memCheck, heq]
  rcases hu with rfl | rfl | rfl | rfl | rfl
  · rw [List.append_nil]
    have : pyIsDigitStr d = true := (pyIsDigitStr_iff d).mpr ⟨hne, hdig⟩
    simp [this]
  all_goals
    rw [takeWhile_append_all _ _ _ hdig, dropWhile_append_all _ _ _ hdig]
    simp [List.isEmpty_eq_false, hne,
      (by decide : List.takeWhile Char.isDigit (str "G") = []),
      (by decide : List.takeWhile Char.isDigit (str "M") = []),
      (by decide : List.takeWhile Char.isDigit (str "GB") = []),
      (by decide : List.takeWhile Char.isDigit (str "MB") = []),
      (by decide : List.dropWhile Char.isDigit (str "G") = str "G"),
      (by decide : List.dropWhile Char.isDigit (str "M") = str "M"),
      (by decide : List.dropWhile Char.isDigit (str "GB") = str "GB"),
      (by decide : List.dropWhile Char.isDigit (str "MB") = str "MB")]

/-- Claim C5: memory strings of shape `N`, `NM`, `NMB` parse to `N`
megabytes and `NG`, `NGB` to `N*1024`; every string not matching digits plus
an optional `G`/`GB`/`M`/`MB` unit (the source applies the pattern to the
stripped, upper-cased string) raises a typed error naming field `MEMORY`;
and when parsing succeeds validation reports a memory error exactly when the
value is below 512. -/
theorem c5_memory_parse_spec :
    (∀ ds : PyStr, ds ≠ [] → (∀ c ∈ ds, c.isDigit = true) →
      parseMemory ds = .ok (natOfDigits ds) ∧
      parseMemory (ds ++ str "M") = .ok (natOfDigits ds) ∧
      parseMemory (ds ++ str "MB") = .ok (natOfDigits ds) ∧
      parseMemory (ds ++ str "G") = .ok (natOfDigits ds * 1024) ∧
      parseMemory (ds ++ str "GB") = .ok (natOfDigits ds * 1024)) ∧
    (∀ s : PyStr, ¬ memPattern s →
      parseMemory s =
        .error ⟨str "Invalid MEMORY format: " ++ pyUpper (pyStrip s),
          some (str "MEMORY")⟩) ∧
    (∀ (cfg : Config) (ms : PyStr) (v : Nat), dictGet cfg (str "MEMORY") = some ms →
      parseMemory ms = .ok v → (memoryErrors cfg ≠ [] ↔ v < 512)) := by
  refine ⟨?_, ?_, ?_⟩
  · intro ds hne hdig
    have hmds : pyUpper (pyStrip ds) = ds := by
      rw [pyStrip_no_ws _ (fun c hc => digit_not_ws c (hdig c hc)),
        pyUpper_id_of _ (fun c hc => digit_toUpper c (hdig c hc))]
    have hdd : pyIsDigitStr ds = true := (pyIsDigitStr_iff ds).mpr ⟨hne, hdig⟩
    have hbare : parseMemory ds = .ok (natOfDigits ds) := by
      simp [parseMemory, hmds, hdd]
    have hndM : pyIsDigitStr (ds ++ str "M") = false := by
      simp [pyIsDigitStr, List.all_append,
        (by decide : (str "M").all Char.isDigit = false)]
    have hndMB : pyIsDigitStr (ds ++ str "MB") = false := by
      simp [pyIsDigitStr, List.all_append,
        (by decide : (str "MB").all Char.isDigit = false)]
    have hndG : pyIsDigitStr (ds ++ str "G") = false := by
      simp [pyIsDigitStr, List.all_append,
        (by decide : (str "G").all Char.isDigit = false)]
    have hndGB : pyIsDigitStr (ds ++ str "GB") = false := by
      simp [pyIsDigitStr, List.all_append,
        (by decide : (str "GB").all Char.isDigit = false)]
    have hM := parseMemory_suffix ds (str "M") hne hdig
      (norm_digits_unit ds (str "M") hdig (by decide) (by decide)) hndM
      (by decide) (by decide) (by decide)
    have hMB := parseMemory_suffix ds (str "MB") hne hdig
      (norm_digits_unit ds (str "MB") hdig (by decide) (by decide)) hndMB
      (by decide) (by decide) (by decide)
    have hG := parseMemory_suffix ds (str "G") hne hdig
      (norm_digits_unit ds (str "G") hdig (by decide) (by decide)) hndG
      (by decide) (by decide) (by decide)
    have hGB := parseMemory_suffix ds (str "GB") hne hdig
      (norm_digits_unit ds (str "GB") hdig (by decide) (by decide)) hndGB
      (by decide) (by decide) (by decide)
    rw [if_neg (by decide)] at hM
    rw [if_neg (by decide)] at hMB
    rw [if_pos (by decide)] at hG
    rw [if_pos (by decide)] at hGB
    exact ⟨hbare, hM, hMB, hG, hGB⟩
  · intro s hnp
    have hdig : pyIsDigitStr (pyUpper (pyStrip s)) = false := by
      by_contra hcon
      rw [Bool.not_eq_false] at hcon
      obtain ⟨hne, hd⟩ := (pyIsDigitStr_iff _).mp hcon
      exact hnp ⟨_, [], (List.append_nil _).symm, hne, hd, .inl rfl⟩
    have hcond : ¬ ((pyUpper (pyStrip s)).takeWhile Char.isDigit ≠ [] ∧
        ((pyUpper (pyStrip s)).dropWhile Char.isDigit = str "G" ∨
          (pyUpper (pyStrip s)).dropWhile Char.isDigit = str "M" ∨
          (pyUpper (pyStrip s)).dropWhile Char.isDigit = str "GB" ∨
          (pyUpper (pyStrip s)).dropWhile Char.isDigit = str "MB")) := by
      rintro ⟨hne, hu⟩
      refine hnp ⟨(pyUpper (pyStrip s)).takeWhile Char.isDigit,
        (pyUpper (pyStrip s)).dropWhile Char.isDigit,
        (List.takeWhile_append_dropWhile _ _).symm, hne,
        fun c hc => List.mem_takeWhile_imp hc, ?_⟩
      rcases hu with h | h | h | h
      · exact .inr (.inl h)
      · exact .inr (.inr (.inl h))
      · exact .inr (.inr (.inr (.inl h)))
      · exact .inr (.inr (.inr (.inr h)))
    simp only [parseMemory]
    rw [hdig, if_neg (by decide), if_neg hcond]
  · intro cfg ms v hget hp
    simp only [memoryErrors, hget, hp]
    split_ifs with hv <;> simp [hv]

/-- Witness for C5: `"2G"` parses to 2048 MB, `"2X"` raises naming `MEMORY`,
and `MEMORY=256` is reported as below the 512 MB minimum. -/
theorem c5_memory_parse_spec_witness :
    parseMemory (str "2G") = .ok 2048 ∧
    parseMemory (str "2X") =
      .error ⟨str "Invalid MEMORY format: 2X", some (str "MEMORY")⟩ ∧
    (memoryErrors [(str "MEMORY", str "256")] ≠ [] ↔ 256 < 512) := by
  refine ⟨?_, ?_, ?_⟩
  · have h := (c5_memory_parse_spec.1 (str "2") (by decide) (by decide)).2.2.2.1
    rw [show str "2" ++ str "G" = str "2G" from rfl] at h
    rw [h]
    decide
  · have hnp : ¬ memPattern (str "2X") := fun hp => by
      have hc := memCheck_of_memPattern _ hp
      revert hc
      decide
    have h := c5_memory_parse_spec.2.1 (str "2X") hnp
    rw [h]
    decide
  · exact c5_memory_parse_spec.2.2 [(str "MEMORY", str "256")] (str "256") 256
      (by decide) (by decide)

/-- Claim C4: `validate` never raises on an accumulable problem (malformed
memory, disk and port strings are caught and accumulated): for every
configuration it evaluates all rules independently and returns every
violation together — its error list is exactly the concatenation of the
per-rule error lists, its warnings are the non-fatal ones — and `valid`
holds exactly when the error list is empty. -/
theorem c4_validate_accumulates (cfg : Config) (fs : FS) :
    (validate cfg fs).errors =
      infraErrors cfg ++ memoryErrors cfg ++ cpusErrors cfg ++ diskErrors cfg ++
        networkErrors cfg ++ ipErrors cfg ++ portsErrors cfg ++ playbookErrors cfg fs ++
        varsErrors cfg fs ++ autoAnsibleErrors cfg ∧
    (validate cfg fs).warnings = infraWarnings cfg ∧
    (validate cfg fs).valid = (validate cfg fs).errors.isEmpty := by
  rw [validate_decomposed]
  exact ⟨rfl, rfl, rfl⟩

theorem parsePortEntry_error_of (m : PyStr) (h : entryMalformed m = true) :
    parsePortEntry m =
      .error ⟨str "Invalid port mapping: " ++ m, some (str "PORTS")⟩ := by
  by_cases hc : ':' ∈ m
  case neg => simp [parsePortEntry, hc]
  case pos =>
    rcases hsp : pySplitOnceChar ':' m with _ | ⟨hp, _ | ⟨cp, _ | ⟨x, rest⟩⟩⟩
    · simp [parsePortEntry, hc, hsp]
    · simp [parsePortEntry, hc, hsp]
    · simp only [entryMalformed, hsp, List.elem_eq_mem, hc, decide_True,
        Bool.not_true, Bool.false_or] at h
      by_cases hauto : pyLower (pyStrip hp) = str "auto"
      · rw [if_pos hauto] at h
        rw [Option.isNone_iff_eq_none] at h
        simp [parsePortEntry, hc, hsp, hauto, h]
      · rw [if_neg hauto] at h
        rcases hh : pyInt? (pyStrip hp) with _ | a
        · rcases hcc : pyInt? (pyStrip cp) with _ | b <;>
            simp [parsePortEntry, hc, hsp, hauto, hh, hcc]
        · rcases hcc : pyInt? (pyStrip cp) with _ | b
          · simp [parsePortEntry, hc, hsp, hauto, hh, hcc]
          · rw [hh, hcc] at h
            simp at h
    · simp [parsePortEntry, hc, hsp]

theorem parsePortEntry_ok_of (m : PyStr) (h : entryMalformed m = false) :
    ∃ p, parsePortEntry m = .ok p := by
  by_cases hc : ':' ∈ m
  case neg => simp [entryMalformed, hc] at h
  case pos =>
    rcases hsp : pySplitOnceChar ':' m with _ | ⟨hp, _ | ⟨cp, _ | ⟨x, rest⟩⟩⟩
    · simp [entryMalformed, hc, hsp] at h
    · simp [entryMalformed, hc, hsp] at h
    · simp only [entryMalformed, hsp, List.elem_eq_mem, hc, decide_True,
        Bool.not_true, Bool.false_or] at h
      by_cases hauto : pyLower (pyStrip hp) = str "auto"
      · rw [if_pos hauto] at h
        rcases hcc : pyInt? (pyStrip cp) with _ | b
        · rw [hcc] at h
          simp at h
        · exact ⟨⟨0, b, true⟩, by simp [parsePortEntry, hc, hsp, hauto, hcc]⟩
      · rw [if_neg hauto] at h
        rcases hh : pyInt? (pyStrip hp) with _ | a
        · rw [hh] at h
          simp at h
        · rcases hcc : pyInt? (pyStrip cp) with _ | b
          · rw [hh, hcc] at h
            simp at h
          · exact ⟨⟨a, b, false⟩, by simp [parsePortEntry, hc, hsp, hauto, hh, hcc]⟩
    · simp [entryMalformed, hc, hsp] at h

theorem parsePortsGo_error (ls : List PyStr)
    (h : ∃ e ∈ ls, entryMalformed (pyStrip e) = true) :
    ∃ m ∈ ls, entryMalformed (pyStrip m) = true ∧
      parsePortsGo ls =
        .error ⟨str "Invalid port mapping: " ++ pyStrip m, some (str "PORTS")⟩ := by
  induction ls with
  | nil => simp at h
  | cons a t ih =>
    by_cases ha : entryMalformed (pyStrip a) = true
    · refine ⟨a, List.mem_cons_self _ _, ha, ?_⟩
      unfold parsePortsGo
      rw [parsePortEntry_error_of _ ha]
    · obtain ⟨p, hp⟩ := parsePortEntry_ok_of (pyStrip a) (by simpa using ha)
      have h' : ∃ e ∈ t, entryMalformed (pyStrip e) = true := by
        obtain ⟨e, he, hme⟩ := h
        rcases List.mem_cons.mp he with rfl | he'
        · exact absurd hme ha
        · exact ⟨e, he', hme⟩
      obtain ⟨m, hm, hmal, herr⟩ := ih h'
      refine ⟨m, List.mem_cons_of_mem _ hm, hmal, ?_⟩
      unfold parsePortsGo
      rw [hp, herr]

/-- Counterexample for C6: the entry `-1:80` has a non-`auto` host side that
does not parse as a non-negative integer, yet the validator's port parser
accepts it without any validation error, because Python `int()` also parses
signed integers. -/
theorem c6_negative_port_counterexample :
    parsePortsV (str "-1:80") = .ok [⟨-1, 80, false⟩] := by decide

/-- Claim C6 (amended): `"8080:80,auto:443"` parses to exactly the two
entries `{host:8080, guest:80, auto:false}` and `{host:0, guest:443,
auto:true}`; a comma-separated entry lacking `:` makes the parse a
validation error naming `PORTS`; and an entry whose non-`auto` host or guest
side fails Python integer parsing (signed integers are accepted, so only
non-integers fail — not negatives, as the counterexample shows) makes the
parse a validation error naming `PORTS` whose message names a malformed
mapping, never a silent skip. -/
theorem c6_ports_parse_amended :
    parsePortsV (str "8080:80,auto:443") =
      .ok [⟨8080, 80, false⟩, ⟨0, 443, true⟩] ∧
    (∀ s : PyStr, (∃ e ∈ pySplitChar ',' s, (pyStrip e).contains ':' = false) →
      ∃ err, parsePortsV s = .error err ∧ err.field = some (str "PORTS")) ∧
    (∀ s : PyStr, (∃ e ∈ pySplitChar ',' s, entryMalformed (pyStrip e) = true) →
      ∃ m ∈ pySplitChar ',' s, entryMalformed (pyStrip m) = true ∧
        parsePortsV s =
          .error ⟨str "Invalid port mapping: " ++ pyStrip m, some (str "PORTS")⟩) := by
  refine ⟨by decide, ?_, ?_⟩
  · intro s he
    obtain ⟨e, hmem, hce⟩ := he
    have hce' : ¬ ':' ∈ pyStrip e := by simpa using hce
    have hmal : entryMalformed (pyStrip e) = true := by
      simp [entryMalformed, hce']
    obtain ⟨m, _, _, herr⟩ := parsePortsGo_error (pySplitChar ',' s) ⟨e, hmem, hmal⟩
    exact ⟨_, herr, rfl⟩
  · intro s he
    exact parsePortsGo_error (pySplitChar ',' s) he

/-- Witness for C6 (amended): an entry without `:` and an entry with a
non-integer side both force a `PORTS` validation error. -/
theorem c6_ports_parse_amended_witness :
    (∃ err, parsePortsV (str "9000") = .error err ∧
      err.field = some (str "PORTS")) ∧
    (∃ m ∈ pySplitChar ',' (str "80:x"), entryMalformed (pyStrip m) = true ∧
      parsePortsV (str "80:x") =
        .error ⟨str "Invalid port mapping: " ++ pyStrip m, some (str "PORTS")⟩) := by
  constructor
  · exact c6_ports_parse_amended.2.1 (str "9000")
      ⟨str "9000", by decide, by decide⟩
  · exact c6_ports_parse_amended.2.2 (str "80:x")
      ⟨str "80:x", by decide, by decide⟩

theorem vmPortEntry_eq_toOption (m : PyStr) :
    vmPortEntry? m = (parsePortEntry m).toOption := by
  by_cases hc : ':' ∈ m
  case neg => simp [vmPortEntry?, parsePortEntry, Except.toOption, hc]
  case pos =>
    rcases hsp : pySplitOnceChar ':' m with _ | ⟨hp, _ | ⟨cp, _ | ⟨x, rest⟩⟩⟩
    · simp [vmPortEntry?, parsePortEntry, Except.toOption, hc, hsp]
    · simp [vmPortEntry?, parsePortEntry, Except.toOption, hc, hsp]
    · by_cases hauto : pyLower (pyStrip hp) = str "auto"
      · rcases hcc : pyInt? (pyStrip cp) with _ | b <;>
          simp [vmPortEntry?, parsePortEntry, Except.toOption, hc, hsp, hauto, hcc]
      · rcases hh : pyInt? (pyStrip hp) with _ | a <;>
          rcases hcc : pyInt? (pyStrip cp) with _ | b <;>
            simp [vmPortEntry?, parsePortEntry, Except.toOption, hc, hsp, hauto, hh, hcc]
    · simp [vmPortEntry?, parsePortEntry, Except.toOption, hc, hsp]

theorem containerPortEntry_eq_vm (m : PyStr) :
    containerPortEntry? m = vmPortEntry? m := rfl

theorem vmParsePortsGo_filterMap (ls : List PyStr) :
    vmParsePortsGo ls = ls.filterMap (fun e => (parsePortEntry (pyStrip e)).toOption) := by
  induction ls with
  | nil => rfl
  | cons a t ih =>
    unfold vmParsePortsGo
    rw [vmPortEntry_eq_toOption, List.filterMap_cons]
    cases (parsePortEntry (pyStrip a)).toOption <;> simp [ih]

theorem containerParsePortsGo_eq_vm (ls : List PyStr) :
    containerParsePortsGo ls = vmParsePortsGo ls := by
  induction ls with
  | nil => rfl
  | cons a t ih =>
    unfold containerParsePortsGo vmParsePortsGo
    rw [containerPortEntry_eq_vm, ih]

theorem parsePortsGo_ok_vm (ls : List PyStr) (l : List PortMapping)
    (h : parsePortsGo ls = .ok l) : vmParsePortsGo ls = l := by
  induction ls generalizing l with
  | nil =>
    simp [parsePortsGo] at h
    simp [vmParsePortsGo, ← h]
  | cons a t ih =>
    unfold parsePortsGo at h
    unfold vmParsePortsGo
    rw [vmPortEntry_eq_toOption]
    cases hp : parsePortEntry (pyStrip a) with
    | error e => rw [hp] at h; cases h
    | ok p =>
      rw [hp] at h
      cases ht : parsePortsGo t with
      | error e => rw [ht] at h; cases h
      | ok ps =>
        rw [ht] at h
        cases h
        simp [Except.toOption, ih ps ht]

/-- Claim C10: the backend managers' port parsers are total, agree with each
other, equal the filter of the validator's per-entry parse over the entries
(so every entry the validator rejects is silently dropped, never raised),
and on every ports string the validator accepts they return exactly the
validator's list. -/
theorem c10_backend_ports_refine_validator :
    (∀ s : PyStr, vmParsePorts s = containerParsePorts s) ∧
    (∀ s : PyStr, vmParsePorts s =
      (pySplitChar ',' s).filterMap (fun e => (parsePortEntry (pyStrip e)).toOption)) ∧
    (∀ (s : PyStr) (l : List PortMapping), parsePortsV s = .ok l →
      vmParsePorts s = l ∧ containerParsePorts s = l) := by
  refine ⟨?_, ?_, ?_⟩
  · intro s
    unfold vmParsePorts containerParsePorts
    rw [containerParsePortsGo_eq_vm]
  · intro s
    exact vmParsePortsGo_filterMap _
  · intro s l h
    have hv : vmParsePorts s = l := parsePortsGo_ok_vm _ _ h
    refine ⟨hv, ?_⟩
    unfold containerParsePorts
    rw [containerParsePortsGo_eq_vm]
    exact hv

/-- Witness for C10 at the spec's example string: the validator accepts it
and both backend parsers return the same two entries. -/
theorem c10_backend_ports_refine_validator_witness :
    vmParsePorts (str "8080:80,auto:443") = [⟨8080, 80, false⟩, ⟨0, 443, true⟩] ∧
      containerParsePorts (str "8080:80,auto:443") =
        [⟨8080, 80, false⟩, ⟨0, 443, true⟩] :=
  c10_backend_ports_refine_validator.2.2 (str "8080:80,auto:443")
    [⟨8080, 80, false⟩, ⟨0, 443, true⟩] (by decide)

/-- Counterexample for C8: `start()` with a freshly probed state of
`NotCreated` returns successfully (an informational "does not exist" no-op
with no backend invocation) in both managers — it is not an error as the
claim requires. -/
theorem c8_start_notcreated_counterexample :
    vmStartAt .notCreated true = ⟨.ok .notExist, false, none⟩ ∧
      containerStartAt .notCreated 0 = ⟨.ok .notExist, false, none⟩ := by decide

/-- Claim C8 (amended): `start()` is an informational no-op (no error, no
backend invocation) when the freshly probed state is `Running`; from
`Stopped` it invokes the backend start primitive and, when that primitive
succeeds, the instance is `Running` afterwards; and when the probed state is
`NotCreated` it is likewise an informational no-op reporting that the
instance does not exist — not an error. -/
theorem c8_start_amended :
    (∀ up : Bool, vmStartAt .running up = ⟨.ok .alreadyRunning, false, none⟩) ∧
    (∀ rc : Int, containerStartAt .running rc = ⟨.ok .alreadyRunning, false, none⟩) ∧
    (∀ up : Bool, vmStartAt .stopped up =
      ⟨.ok .started, true, if up then some .running else none⟩) ∧
    (containerStartAt .stopped 0 = ⟨.ok .started, true, some .running⟩) ∧
    (∀ up : Bool, vmStartAt .notCreated up = ⟨.ok .notExist, false, none⟩) ∧
    (∀ rc : Int, containerStartAt .notCreated rc = ⟨.ok .notExist, false, none⟩) := by
  refine ⟨fun up => rfl, fun rc => by simp [containerStartAt], fun up => rfl,
    by decide, fun up => rfl, fun rc => by simp [containerStartAt]⟩

/-- Claim C7: whenever the `rm` command completes the removal (it was not
cancelled at the confirmation prompt and the backend remove succeeded), the
ProvisioningRecord is cleared — `is_provisioned` is false afterwards for
every initial state (`NotCreated`, `Stopped`, `Running`) and every prior
marker value. -/
theorem c7_remove_clears_record (e : RmEnv) (marker : Bool)
    (h : (rmCmd e marker).1 = .completed) : (rmCmd e marker).2 = false := by
  unfold rmCmd at h ⊢
  by_cases ht : e.infraType = str "vm"
  · simp only [if_pos ht] at h ⊢
    by_cases hcan : ¬e.force ∧ e.probed ≠ .notCreated ∧ pyLower e.response ≠ str "yes"
    · simp only [if_pos hcan] at h
      simp at h
    · simp only [if_neg hcan] at h ⊢
      cases hr : vmRemoveAt e.probed e.haltOk e.destroyOk with
      | ok _ => simp [hr, clearRecord]
      | error er =>
        rw [hr] at h
        simp at h
  · simp only [if_neg ht] at h ⊢
    by_cases ht2 : e.infraType = str "container"
    · simp only [if_pos ht2] at h ⊢
      by_cases hcan : ¬e.force ∧ e.probed ≠ .notCreated ∧ pyLower e.response ≠ str "yes"
      · simp only [if_pos hcan] at h
        simp at h
      · simp only [if_neg hcan] at h ⊢
        cases hr : containerRemoveAt e.probed e.haltOk e.destroyOk with
        | ok _ => simp [hr, clearRecord]
        | error er =>
          rw [hr] at h
          simp at h
    · simp only [if_neg ht2] at h
      simp at h

/-- Witness for C7: a forced `rm` of a running VM with a previously set
marker completes and clears the marker. -/
theorem c7_remove_clears_record_witness :
    (rmCmd ⟨str "vm", true, .running, str "", true, true⟩ true).1 = .completed ∧
      (rmCmd ⟨str "vm", true, .running, str "", true, true⟩ true).2 = false :=
  ⟨by decide, c7_remove_clears_record ⟨str "vm", true, .running, str "", true, true⟩
    true (by decide)⟩

theorem runPlaybookPhase_ok (e : PEnv) (marker : Bool) (tr : List PStep)
    (h : (runPlaybookPhase e marker tr).res = .ok ()) :
    (runPlaybookPhase e marker tr).markerAfter = true := by
  unfold runPlaybookPhase at h ⊢
  by_cases ht : e.infraType = str "container"
  · simp only [if_pos ht] at h ⊢
    by_cases hcopy : ¬ e.copyOk
    · simp only [if_pos hcopy] at h
      simp at h
    · simp only [if_neg hcopy] at h ⊢
      by_cases hrc : e.playRc ≠ 0
      · simp only [if_pos hrc] at h
        simp at h
      · simp only [if_neg hrc] at h ⊢
        simp [markRecordSet]
  · simp only [if_neg ht] at h ⊢
    by_cases hrc : e.playRc ≠ 0
    · simp only [if_pos hrc] at h
      simp at h
    · simp only [if_neg hrc] at h ⊢
      simp [markRecordSet]

theorem runProvisioning_marker_skip (e : PEnv) :
    runProvisioning e true = ⟨.ok (), [], true⟩ := by
  unfold runProvisioning
  cases hpb : dictGet e.cfg (str "PROVISIONING_PLAYBOOK") with
  | none => rfl
  | some pb =>
    by_cases hemp : pb.isEmpty
    · simp [hemp]
    · simp [hemp, checkRecord]

theorem runProvisioning_marks (e : PEnv) (marker : Bool)
    (hok : (runProvisioning e marker).res = .ok ())
    (hcm : 0 < cmCount (runProvisioning e marker).trace) :
    (runProvisioning e marker).markerAfter = true := by
  revert hok hcm
  simp only [runProvisioning]
  repeat' split
  all_goals intro hok hcm
  all_goals
    first
      | exact runPlaybookPhase_ok _ _ _ hok
      | simp [cmCount] at hcm

/-- Counterexample for C2: `AnsibleProvisioner.execute` does not consult the
provisioning marker: with the marker already present — exactly the state
after a successful non-dry-run `execute()` — a further `execute()` still
performs one configuration-management invocation (plus inventory and
connectivity work) instead of skipping. -/
theorem c2_execute_ignores_marker_counterexample :
    (executeA ⟨true, true, none, str "vm", 0, str "", 0, 0, false⟩).res = .ok () ∧
      cmCountA (executeA ⟨true, true, none, str "vm", 0, str "", 0, 0, false⟩).trace
        = 1 := by decide

/-- Claim C2 (amended): the idempotence check lives in the CLI orchestration
`_run_provisioning`, not in `AnsibleProvisioner.execute`: when the
ProvisioningRecord is present, `_run_provisioning` returns success with an
empty trace — zero configuration-management invocations and no probe,
bootstrap or connectivity work; and after a `_run_provisioning` that
actually performed the configuration-management run successfully (which sets
the record), a second call skips the same way. -/
theorem c2_provisioning_skip_amended :
    (∀ e : PEnv, runProvisioning e true = ⟨.ok (), [], true⟩) ∧
    (∀ e1 e2 : PEnv, (runProvisioning e1 false).res = .ok () →
      0 < cmCount (runProvisioning e1 false).trace →
      runProvisioning e2 (runProvisioning e1 false).markerAfter = ⟨.ok (), [], true⟩) := by
  refine ⟨runProvisioning_marker_skip, ?_⟩
  intro e1 e2 h1 h2
  rw [runProvisioning_marks e1 false h1 h2]
  exact runProvisioning_marker_skip e2

/-- Witness for C2 (amended): after a successful VM provisioning run, a
second request with the resulting marker performs no work and succeeds. -/
theorem c2_provisioning_skip_amended_witness :
    runProvisioning
        ⟨[(str "PROVISIONING_PLAYBOOK", str "site.yml")], str "vm", str "x",
          .exc, none, false, false, false, 0, true, 0⟩
        ((runProvisioning
          ⟨[(str "PROVISIONING_PLAYBOOK", str "site.yml")], str "vm", str "x",
            .exc, none, false, false, false, 0, true, 0⟩ false).markerAfter) =
      ⟨.ok (), [], true⟩ :=
  c2_provisioning_skip_amended.2 _ _ (by decide) (by decide)

theorem dictGet_cons (a b : PyStr) (t : Config) (k : PyStr) :
    dictGet ((a, b) :: t) k = if a == k then some b else dictGet t k := by
  by_cases h : a == k <;> simp [dictGet, List.find?_cons, h]

theorem dictGet_replace_ne (t : Config) (k v k' : PyStr) (h : ¬ (k == k') = true) :
    dictGet (t.map (fun kv => if kv.1 == k then (k, v) else kv)) k' = dictGet t k' := by
  induction t with
  | nil => rfl
  | cons a t ih =>
    obtain ⟨a1, a2⟩ := a
    simp only [List.map_cons]
    by_cases ha : (a1 == k) = true
    · have hak : a1 = k := by simpa using ha
      have h2 : ¬ (a1 == k') = true := by rw [hak]; exact h
      rw [if_pos ha, dictGet_cons, dictGet_cons, if_neg h, if_neg h2, ih]
    · rw [if_neg ha, dictGet_cons, dictGet_cons]
      by_cases hk' : (a1 == k') = true
      · rw [if_pos hk', if_pos hk']
      · rw [if_neg hk', if_neg hk', ih]

theorem dictGet_replace_self (t : Config) (k v : PyStr)
    (h : t.any (fun kv => kv.1 == k) = true) :
    dictGet (t.map (fun kv => if kv.1 == k then (k, v) else kv)) k = some v := by
  induction t with
  | nil => cases h
  | cons a t ih =>
    obtain ⟨a1, a2⟩ := a
    simp only [List.map_cons]
    by_cases ha : (a1 == k) = true
    · rw [if_pos ha, dictGet_cons, if_pos (by simp)]
    · rw [if_neg ha, dictGet_cons, if_neg ha]
      apply ih
      simp only [List.any_cons, ha, Bool.false_or] at h
      exact h

theorem dictGet_append_single (t : Config) (k v k' : PyStr) :
    dictGet (t ++ [(k, v)]) k' =
      match dictGet t k' with
      | some w => some w
      | none => if k == k' then some v else none := by
  induction t with
  | nil =>
    rw [List.nil_append, dictGet_cons]
    by_cases h : (k == k') = true <;> simp [h, dictGet]
  | cons a t ih =>
    obtain ⟨a1, a2⟩ := a
    rw [List.cons_append, dictGet_cons, dictGet_cons]
    by_cases ha : (a1 == k') = true
    · rw [if_pos ha, if_pos ha]
    · rw [if_neg ha, if_neg ha, ih]

theorem dictGet_eq_none_of_not_any (d : Config) (k : PyStr)
    (h : ¬ d.any (fun kv => kv.1 == k) = true) : dictGet d k = none := by
  induction d with
  | nil => rfl
  | cons a t ih =>
    obtain ⟨a1, a2⟩ := a
    simp only [List.any_cons, Bool.or_eq_true, not_or] at h
    rw [dictGet_cons, if_neg h.1]
    exact ih (by simpa using h.2)

theorem dictGet_dictSet_self (d : Config) (k v : PyStr) :
    dictGet (dictSet d k v) k = some v := by
  unfold dictSet
  by_cases hmem : d.any (fun kv => kv.1 == k) = true
  · rw [if_pos hmem]
    exact dictGet_replace_self d k v hmem
  · rw [if_neg hmem, dictGet_append_single,
      dictGet_eq_none_of_not_any d k hmem]
    simp

theorem dictGet_dictSet_ne (d : Config) (k v k' : PyStr)
    (h : ¬ (k == k') = true) :
    dictGet (dictSet d k v) k' = dictGet d k' := by
  unfold dictSet
  by_cases hmem : d.any (fun kv => kv.1 == k) = true
  · rw [if_pos hmem]
    exact dictGet_replace_ne d k v k' h
  · rw [if_neg hmem, dictGet_append_single]
    rcases hg : dictGet d k' with _ | w <;> simp [h]

theorem envUpdate_none (cfg : Config) (env : Config) (k : PyStr)
    (h : dictGet cfg k = none) :
    dictGet (envUpdate env cfg) k = dictGet env k := by
  induction cfg generalizing env with
  | nil => rfl
  | cons a t ih =>
    obtain ⟨a1, a2⟩ := a
    rw [dictGet_cons] at h
    by_cases ha : (a1 == k) = true
    · simp [ha] at h
    · rw [if_neg ha] at h
      show dictGet (envUpdate (dictSet env a1 a2) t) k = dictGet env k
      rw [ih _ h]
      exact dictGet_dictSet_ne _ _ _ _ ha

theorem mem_keys_of_dictGet_some (d : Config) (k w : PyStr)
    (h : dictGet d k = some w) : k ∈ d.map Prod.fst := by
  induction d with
  | nil => cases h
  | cons a t ih =>
    obtain ⟨a1, a2⟩ := a
    rw [dictGet_cons] at h
    by_cases ha : (a1 == k) = true
    · have : a1 = k := by simpa using ha
      simp [← this]
    · rw [if_neg ha] at h
      simp [ih h]

theorem envUpdate_some (cfg : Config) (hnd : (cfg.map Prod.fst).Nodup)
    (env : Config) (k v : PyStr) (h : dictGet cfg k = some v) :
    dictGet (envUpdate env cfg) k = some v := by
  induction cfg generalizing env with
  | nil => cases h
  | cons a t ih =>
    obtain ⟨a1, a2⟩ := a
    simp only [List.map_cons, List.nodup_cons] at hnd
    rw [dictGet_cons] at h
    by_cases ha : (a1 == k) = true
    · have hak : a1 = k := by simpa using ha
      rw [if_pos ha] at h
      have hnone : dictGet t k = none := by
        rcases hg : dictGet t k with _ | w
        · rfl
        · exfalso
          apply hnd.1
          rw [hak]
          exact mem_keys_of_dictGet_some t k w hg
      show dictGet (envUpdate (dictSet env a1 a2) t) k = some v
      rw [envUpdate_none t _ k hnone]
      cases h
      rw [← hak]
      exact dictGet_dictSet_self _ _ _
    · rw [if_neg ha] at h
      exact ih hnd.2 _ h

theorem dictSet_keys_replace (t : Config) (k v : PyStr) :
    (t.map (fun kv => if kv.1 == k then (k, v) else kv)).map Prod.fst =
      t.map Prod.fst := by
  induction t with
  | nil => rfl
  | cons a t ih =>
    obtain ⟨a1, a2⟩ := a
    simp only [List.map_cons]
    by_cases ha : (a1 == k) = true
    · have hak : a1 = k := by simpa using ha
      rw [if_pos ha]
      simp only [List.map_cons, ih]
      rw [hak]
    · rw [if_neg ha]
      simp only [List.map_cons, ih]

theorem dictSet_nodup (d : Config) (k v : PyStr)
    (h : (d.map Prod.fst).Nodup) : ((dictSet d k v).map Prod.fst).Nodup := by
  unfold dictSet
  by_cases hmem : d.any (fun kv => kv.1 == k) = true
  · rw [if_pos hmem, dictSet_keys_replace]
    exact h
  · rw [if_neg hmem, List.map_append, List.nodup_append]
    refine ⟨h, by simp, ?_⟩
    intro x hx hx2
    simp only [List.map_cons, List.map_nil, List.mem_singleton] at hx2
    subst hx2
    obtain ⟨kv, hkv, hfst⟩ := List.mem_map.mp hx
    apply hmem
    rw [List.any_eq_true]
    exact ⟨kv, hkv, by simp [hfst]⟩

theorem envLineStep_nodup (acc : Config) (line : PyStr)
    (h : (acc.map Prod.fst).Nodup) :
    ((envLineStep acc line).map Prod.fst).Nodup := by
  unfold envLineStep
  split
  · exact h
  · split
    · exact h
    · split
      · split
        · exact dictSet_nodup _ _ _ h
        · exact h
      · exact h

theorem parseEnvLines_nodup_aux (lines : List PyStr) (acc : Config)
    (hacc : (acc.map Prod.fst).Nodup) :
    ((lines.foldl envLineStep acc).map Prod.fst).Nodup := by
  induction lines generalizing acc with
  | nil => exact hacc
  | cons line rest ih => exact ih _ (envLineStep_nodup acc line hacc)

theorem parseEnvLines_nodup (content : PyStr) :
    ((parseEnvLines content).map Prod.fst).Nodup :=
  parseEnvLines_nodup_aux _ [] (by simp)

/-- Counterexample for C9: `load()` mutates process-global state — it
updates the process environment with every parsed key/value pair
(`os.environ.update`), so loading `A=B` changes an initially empty
environment. -/
theorem c9_load_mutates_env_counterexample :
    pyLoad true (str "A=B") [] =
      .ok ([(str "A", str "B")], [(str "A", str "B")]) ∧
    ([] : Config) ≠ [(str "A", str "B")] := by decide

/-- Claim C9 (amended): `load` writes no files but does mutate process-global
state: it updates the process environment with every parsed key/value pair
(parsed keys now map to their parsed values, all other keys are untouched),
and raises when the file is absent; `validate` performs no side effects and
depends on the filesystem only through the existence checks of the
configured playbook and vars paths. -/
theorem c9_load_validate_effects_amended :
    (∀ (content : PyStr) (env : Config),
      pyLoad true content env =
        .ok (parseEnvLines content, envUpdate env (parseEnvLines content)) ∧
      pyLoad false content env = .error ()) ∧
    (∀ (content : PyStr) (env : Config) (k : PyStr),
      (∀ v, dictGet (parseEnvLines content) k = some v →
        dictGet (envUpdate env (parseEnvLines content)) k = some v) ∧
      (dictGet (parseEnvLines content) k = none →
        dictGet (envUpdate env (parseEnvLines content)) k = dictGet env k)) ∧
    (∀ (cfg : Config) (fs1 fs2 : FS),
      (∀ p, dictGet cfg (str "PROVISIONING_PLAYBOOK") = some p → fs1 p = fs2 p) →
      (∀ p, dictGet cfg (str "PROVISIONING_VARS") = some p → fs1 p = fs2 p) →
      validate cfg fs1 = validate cfg fs2) := by
  refine ⟨fun content env => ⟨by simp [pyLoad], by simp [pyLoad]⟩, ?_, ?_⟩
  · intro content env k
    exact ⟨fun v hv => envUpdate_some _ (parseEnvLines_nodup content) env k v hv,
      fun hn => envUpdate_none _ env k hn⟩
  · intro cfg fs1 fs2 h1 h2
    have hpb : playbookErrors cfg fs1 = playbookErrors cfg fs2 := by
      cases hg : dictGet cfg (str "PROVISIONING_PLAYBOOK") with
      | none => simp [playbookErrors, hg]
      | some p => simp [playbookErrors, hg, h1 p hg]
    have hv : varsErrors cfg fs1 = varsErrors cfg fs2 := by
      cases hg : dictGet cfg (str "PROVISIONING_VARS") with
      | none => simp [varsErrors, hg]
      | some p => simp [varsErrors, hg, h2 p hg]
    rw [validate_decomposed, validate_decomposed]
    unfold allRuleErrors
    rw [hpb, hv]

/-- Witness for C9 (amended): the loaded pair is visible in the updated
environment, and `validate` cannot distinguish filesystems that agree on the
checked paths (here: no paths are configured at all). -/
theorem c9_load_validate_effects_amended_witness :
    dictGet (envUpdate [] (parseEnvLines (str "A=B"))) (str "A") =
      some (str "B") ∧
    validate [(str "INFRA_TYPE", str "container")] (fun _ => true) =
      validate [(str "INFRA_TYPE", str "container")] (fun _ => false) := by
  constructor
  · exact (c9_load_validate_effects_amended.2.1 (str "A=B") [] (str "A")).1
      (str "B") (by decide)
  · exact c9_load_validate_effects_amended.2.2
      [(str "INFRA_TYPE", str "container")] (fun _ => true) (fun _ => false)
      (fun p hp => by
        rw [(by decide : dictGet [(str "INFRA_TYPE", str "container")]
          (str "PROVISIONING_PLAYBOOK") = none)] at hp
        cases hp)
      (fun p hp => by
        rw [(by decide : dictGet [(str "INFRA_TYPE", str "container")]
          (str "PROVISIONING_VARS") = none)] at hp
        cases hp)

/-- Witness for C3: a failed query and a listing that does not name the
instance both normalize to `NotCreated`. -/
theorem c3_state_probe_total_witness :
    vmGetState (.ok 2 (str "some output")) = .notCreated ∧
      containerGetState (.ok 0 (str "other\tUp 2 minutes")) (str "web") = .notCreated := by
  constructor
  · exact ((c3_state_probe_total (.ok 2 (str "some output")) (str "web")).2.2.2.1
      2 (str "some output") (by decide)).1
  · exact (c3_state_probe_total (.ok 0 (str "other\tUp 2 minutes")) (str "web")).2.2.2.2
      (by decide)

end Vagrantp
